import Mathlib

/-!
Verification development for the CVInsight resume-extraction pipeline.

The definitions below are shallow embeddings of the Python source:
dictionaries become association lists over a JSON-like value type,
machine floats appearing in the degree heuristics become exact rationals
(every constant involved, 0.5 .. 8.0 and the 0.2 tolerance factor, is a
small decimal so the translation is value-faithful on the reachable
inputs), and code that may raise becomes functions into Except.
External library behaviour (the LLM call itself, prompt rendering,
Python str() of a parsed result, date parsing by strptime) enters the
model as explicit parameters or outcome values, never as stubs of the
repository logic itself.
-/

namespace CVInsight

/-! Basic model of Python/JSON values and dictionaries. -/

/-- JSON-like values as produced by the JsonOutputParser and passed
around the extractors: null, strings, numbers (modelled as rationals),
booleans, lists and string-keyed dictionaries. -/
inductive JVal where
  | null
  | s (v : String)
  | q (v : ℚ)
  | b (v : Bool)
  | arr (xs : List JVal)
  | obj (kvs : List (String × JVal))

/-- A Python dictionary with string keys, modelled as an association
list; lookup returns the first binding, and since the embedded code
never creates duplicate keys this coincides with Python semantics. -/
abbrev PyDict := List (String × JVal)

/-- Python d.get(k): the bound value, or None when the key is absent. -/
def pyGet (d : PyDict) (k : String) : JVal :=
  (List.lookup k d).getD JVal.null

/-- Python d.get(k, dflt): the bound value (even when it is None), or
the default when the key is absent. -/
def pyGetD (d : PyDict) (k : String) (dflt : JVal) : JVal :=
  (List.lookup k d).getD dflt

/-- Python d[k] = v: replace the first binding of k, or append one. -/
def pySet : PyDict → String → JVal → PyDict
  | [], k, v => [(k, v)]
  | (k0, v0) :: t, k, v =>
      if k0 = k then (k, v) :: t else (k0, v0) :: pySet t k v

/-- Python truthiness of a value: None, empty strings, zero, False and
empty containers are falsy. -/
def truthy : JVal → Bool
  | .null => false
  | .s v => v ≠ ""
  | .q v => v ≠ 0
  | .b v => v
  | .arr xs => !xs.isEmpty
  | .obj kvs => !kvs.isEmpty

/-- Python `a or b` on values: a when truthy, otherwise b. -/
def pyOrJ (a b : JVal) : JVal :=
  if truthy a then a else b

/-! Character-level string helpers mirroring the Python string
operations used by the degree heuristics (all inputs there are ASCII,
for which these agree with str.lower and the `in` operator). -/

/-- Lower-case an ASCII character, as str.lower does on ASCII input. -/
def lowerChar (c : Char) : Char :=
  if 'A' ≤ c ∧ c ≤ 'Z' then Char.ofNat (c.toNat + 32) else c

/-- Lower-case a string character by character. -/
def pyLower (str : String) : String :=
  String.mk (str.data.map lowerChar)

/-- Whether the first character list begins with the second. -/
def chStarts : List Char → List Char → Bool
  | _, [] => true
  | [], _ :: _ => false
  | a :: as, b :: bs => a = b && chStarts as bs

/-- Whether needle occurs contiguously inside hay, as the Python
substring test `needle in hay`. -/
def chContains : List Char → List Char → Bool
  | [], needle => needle.isEmpty
  | hay@(_ :: t), needle => chStarts hay needle || chContains t needle

/-- Python `sub in hay` for strings. -/
def strContains (hay sub : String) : Bool :=
  chContains hay.data sub.data

/-- Whether any of the keyword terms occurs in the (already lowered)
degree string; mirrors the `any(term in highest_degree ...)` tests. -/
def matchesAny (hd : String) (terms : List String) : Bool :=
  terms.any (fun t => strContains hd t)

/-! Embedding of RelevantYoEExtractorPlugin.map_degree_to_years
(src/cvinsight/custom_plugins/relevant_yoe_extractor/relevant_yoe_extractor.py,
lines 126-213).  The keyword lists are copied from the source verbatim. -/

/-- An apostrophe character, built by code point so the source keyword
written with one can be reproduced verbatim. -/
def apos : String := String.mk [Char.ofNat 39]

/-- PhD-family keywords from the source. -/
def phdTerms : List String :=
  ["phd", "doctorate", "doctor of", "ph.d", "ph d", "d.phil", "dphil",
   "doctoral", "sc.d", "dr.", "doktor", "philosophy", "philosophiae"]

/-- Master-family keywords from the source. -/
def mastersTerms : List String :=
  ["master", "masters", "ms", "ma", "mba", "msc", "m.sc", "m.s.", "m.a.", "m.eng", "meng",
   "m.ed", "med", "m.phil", "mphil", "m.res", "mres", "m.st", "mst", "magister",
   "m.arch", "march", "m.tech", "mtech", "llm", "ll.m", "macc", "m.acc", "mfin", "m.fin",
   "mpa", "m.p.a", "mpp", "m.p.p", "msw", "m.s.w", "mls", "m.l.s", "msn", "m.s.n"]

/-- Bachelor-family keywords from the source. -/
def bachelorTerms : List String :=
  ["bachelor", "bachelors", "bs", "ba", "bsc", "b.sc", "b.s.", "b.a.", "b.e.", "be",
   "b.tech", "btech", "b.eng", "beng", "b.arch", "barch", "b.com", "bcom",
   "bfa", "b.f.a.", "b.b.a", "bba", "ll.b", "llb", "b.ed", "bed", "b.n", "bn",
   "b.nurs", "b nursing", "bsn", "b.s.n", "bsw", "b.s.w", "undergraduate",
   "laurea", "licenciatura", "bmus", "b.mus", "bsc hons", "b.sc. hons"]

/-- Associate-family keywords from the source. -/
def associateTerms : List String :=
  ["associate", "associates", "associate" ++ apos ++ "s", "as", "aa", "a.s.", "a.a.", "a.a.s.",
   "aas", "a.e.", "ae", "a.e.t", "aet", "a.b.a", "aba", "a.s.n", "asn",
   "foundation degree", "higher national diploma", "hnd", "two-year degree",
   "a.a.b", "aab", "a.g.s", "ags"]

/-- Diploma/certificate-family keywords from the source. -/
def diplomaTerms : List String :=
  ["diploma", "certificate", "online", "certification", "cert", "bootcamp",
   "professional certification", "prof cert", "nanodegree", "microdegree",
   "post-graduate diploma", "post graduate diploma", "pgd", "p.g.d.", "short course",
   "graduate diploma", "grad diploma", "grad dip", "grad.dip.", "technical diploma",
   "vocational certificate", "apprenticeship", "trade certificate", "tech cert"]

/-- The two keys the mapper reads from the education-stats dictionary:
whether the highest_degree key is present at all, and the (possibly
None) values bound to the two keys. -/
structure DegreeInfo where
  hasHighestDegreeKey : Bool
  highest_degree : Option String
  highest_degree_status : Option String

/-- Python `d.get(k, "").lower() if d.get(k) else ""`: lower-case the
value when it is a truthy string, otherwise the empty string. -/
def lowerIfTruthy : Option String → String
  | some str => if str = "" then "" else pyLower str
  | none => ""

/-- Embedding of map_degree_to_years.  The outer Option models
Python truthiness of the whole education_info argument (None or an
empty dictionary select the None branch); a missing highest_degree key
also returns None; otherwise the ordered keyword matching of the
source runs, returning the education years as an exact rational. -/
def map_degree_to_years : Option DegreeInfo → Option ℚ
  | none => none
  | some d =>
    if !d.hasHighestDegreeKey then none
    else
      let hd := lowerIfTruthy d.highest_degree
      let st := lowerIfTruthy d.highest_degree_status
      let is_pursuing := st = "pursuing"
      if matchesAny hd phdTerms then
        some (if is_pursuing then 7 else 8)
      else if matchesAny hd mastersTerms then
        some (if is_pursuing then 3 else 6)
      else if matchesAny hd bachelorTerms then
        some (if is_pursuing then 2 else 4)
      else if matchesAny hd associateTerms then
        some (if is_pursuing then 1 else 2)
      else if matchesAny hd diplomaTerms then
        some (if is_pursuing then 1/2 else 1)
      else if strContains hd "engineer" &&
              !(matchesAny hd ["master", "phd", "doctor"]) then
        some (if is_pursuing then 2 else 4)
      else
        some (if is_pursuing then 1/2 else 1)

/-! Embedding of RelevantYoEExtractorPlugin.process_output and extract
(relevant_yoe_extractor.py, lines 215-369).  The LLM result is the
RelevantYearsOfExperience record: its nine declared fields, each an
optional number (model_dump always materialises every key, so a record
of optional rationals is a faithful image of the dictionary). -/

/-- The RelevantYearsOfExperience output record, fields in source
order: three legacy names kept for backward compatibility, then the
new explicitly-named fields. -/
structure RelevantYearsOfExperience where
  relevant_education_years : Option ℚ
  relevant_job_experience_years : Option ℚ
  total_relevant_experience_years : Option ℚ
  relevant_edu_yoe : Option ℚ
  all_edu_yoe : Option ℚ
  relevant_work_yoe : Option ℚ
  all_work_yoe : Option ℚ
  relevant_total_yoe : Option ℚ
  all_total_yoe : Option ℚ

/-- Python `a or b` on optional numbers (None and 0.0 are falsy). -/
def pyOrQ (a b : Option ℚ) : Option ℚ :=
  match a with
  | some x => if x ≠ 0 then some x else b
  | none => b

/-- One iteration of the field_mapping loop for the education pair:
copy the value across when exactly one of the old/new names is bound
to a non-None value. -/
def syncEdu (r : RelevantYearsOfExperience) : RelevantYearsOfExperience :=
  if r.relevant_education_years.isSome ∧ r.relevant_edu_yoe.isNone then
    { r with relevant_edu_yoe := r.relevant_education_years }
  else if r.relevant_edu_yoe.isSome ∧ r.relevant_education_years.isNone then
    { r with relevant_education_years := r.relevant_edu_yoe }
  else r

/-- The field_mapping iteration for the work pair. -/
def syncWork (r : RelevantYearsOfExperience) : RelevantYearsOfExperience :=
  if r.relevant_job_experience_years.isSome ∧ r.relevant_work_yoe.isNone then
    { r with relevant_work_yoe := r.relevant_job_experience_years }
  else if r.relevant_work_yoe.isSome ∧ r.relevant_job_experience_years.isNone then
    { r with relevant_job_experience_years := r.relevant_work_yoe }
  else r

/-- The field_mapping iteration for the total pair. -/
def syncTotal (r : RelevantYearsOfExperience) : RelevantYearsOfExperience :=
  if r.total_relevant_experience_years.isSome ∧ r.relevant_total_yoe.isNone then
    { r with relevant_total_yoe := r.total_relevant_experience_years }
  else if r.relevant_total_yoe.isSome ∧ r.total_relevant_experience_years.isNone then
    { r with total_relevant_experience_years := r.relevant_total_yoe }
  else r

/-- The whole field_mapping loop, in the dictionary insertion order of
the source (education, job, total). -/
def syncFields (r : RelevantYearsOfExperience) : RelevantYearsOfExperience :=
  syncTotal (syncWork (syncEdu r))

/-- The education-correction block of process_output (lines 249-282):
when education info is available and maps to a number, fill
all_edu_yoe if the LLM left it None, fill the relevant-education pair
if the code sees no current value, and replace an existing current
value by the mapped one when it differs by more than 20 percent of the
mapped value. -/
def eduCorrection (r : RelevantYearsOfExperience) (education_info : Option DegreeInfo) :
    RelevantYearsOfExperience :=
  match education_info with
  | none => r
  | some info =>
    match map_degree_to_years (some info) with
    | none => r
    | some mapped =>
      let current := pyOrQ r.relevant_edu_yoe r.relevant_education_years
      let r1 := if r.all_edu_yoe.isNone then { r with all_edu_yoe := some mapped } else r
      match current with
      | none =>
        { r1 with relevant_education_years := some mapped, relevant_edu_yoe := some mapped }
      | some c =>
        if |c - mapped| > mapped * (1/5) then
          { r1 with relevant_education_years := some mapped, relevant_edu_yoe := some mapped }
        else r1

/-- The relevant-total computation of process_output (lines 284-296).
The wildcard arm mirrors the Python TypeError path, which is
unreachable: under the guard, the field_mapping sync has already made
each guarded pair fully populated, so both pyOrQ values are some. -/
def relevantTotals (r : RelevantYearsOfExperience) : RelevantYearsOfExperience :=
  if (r.relevant_edu_yoe.isSome ∨ r.relevant_education_years.isSome) ∧
     (r.relevant_work_yoe.isSome ∨ r.relevant_job_experience_years.isSome) then
    match pyOrQ r.relevant_edu_yoe r.relevant_education_years,
          pyOrQ r.relevant_work_yoe r.relevant_job_experience_years with
    | some e, some w =>
      { r with relevant_total_yoe := some (e + w),
               total_relevant_experience_years := some (e + w) }
    | _, _ => r
  else r

/-- The all-experience total computation of process_output
(lines 298-300). -/
def allTotals (r : RelevantYearsOfExperience) : RelevantYearsOfExperience :=
  match r.all_edu_yoe, r.all_work_yoe with
  | some e, some w => { r with all_total_yoe := some (e + w) }
  | _, _ => r

/-- Embedding of RelevantYoEExtractorPlugin.process_output: alias
sync, education correction, then the two total computations. -/
def process_output (result : RelevantYearsOfExperience)
    (education_info : Option DegreeInfo) : RelevantYearsOfExperience :=
  allTotals (relevantTotals (eduCorrection (syncFields result) education_info))

/-! Embedding of RelevantYoEExtractorPlugin.extract (lines 304-369):
the mutable instance configuration, the temporary override from
additional_params, and the try/finally restore. -/

/-- The mutable configuration the plugin instance carries between
calls: the (defaulted, hence always present) job description and the
optional submission date. -/
structure RYState where
  job_description : String
  date_of_resume_submission : Option String

/-- The additional_params dictionary restricted to the two keys the
extract method reads; None models both an absent key and a falsy
value, matching the truthiness tests in the source. -/
structure AddParams where
  job_description : Option String
  date_of_resume_submission : Option String

/-- The override step at the top of extract: install the truthy
additional parameters into the instance state. -/
def applyOverrides (st : RYState) (p : Option AddParams) : RYState :=
  match p with
  | none => st
  | some ps =>
    let st1 := match ps.job_description with
      | some jd => if jd ≠ "" then { st with job_description := jd } else st
      | none => st
    match ps.date_of_resume_submission with
    | some dt => if dt ≠ "" then { st1 with date_of_resume_submission := some dt } else st1
    | none => st1

/-- Embedding of RelevantYoEExtractorPlugin.extract.  The body between
override and restore (LLM call plus process_output, either of which
may raise) is abstracted as its outcome, a function of the state the
body actually runs under; the try/finally of the source restores the
two configuration fields on both the success and the failure path.
The function returns the call outcome together with the instance state
left behind after the finally block. -/
def ryExtract (st : RYState) (params : Option AddParams)
    (body : RYState → Except Unit (RelevantYearsOfExperience × PyDict)) :
    Except Unit (RelevantYearsOfExperience × PyDict) × RYState :=
  let original_job_description := st.job_description
  let original_date := st.date_of_resume_submission
  let st1 := applyOverrides st params
  let outcome := body st1
  (outcome,
   { st1 with job_description := original_job_description,
              date_of_resume_submission := original_date })

/-! Embedding of the two extract_with_llm implementations
(src/llm_service.py lines 48-182 and src/cvinsight/core/llm_service.py
lines 96-225).  The langchain chain invocation is abstracted as its
outcome: either an exception, or a parsed result value together with
the token-usage dictionary accumulated by the callback handler.  The
strings produced by external library calls, namely the rendered prompt
(PromptTemplate.format, which fills the format_instructions partial)
and the Python str() of the parsed result, enter as parameters.
Prompt rendering with str.format is modelled by its success condition:
it succeeds exactly when every placeholder of the template is
supplied. -/

/-- The token_usage dictionary built by TokenUsageCallbackHandler. -/
structure CbUsage where
  total_tokens : ℕ
  prompt_tokens : ℕ
  completion_tokens : ℕ
  source : String

/-- The token-usage dictionary returned to the caller; is_estimated
models the optional is_estimated key with absent read as false, the
`.get` default used by every consumer. -/
structure TokenUsage where
  total_tokens : ℕ
  prompt_tokens : ℕ
  completion_tokens : ℕ
  source : String
  is_estimated : Bool

/-- The zeroed usage returned from the exception handler of both
implementations. -/
def errorTokenUsage : TokenUsage :=
  { total_tokens := 0, prompt_tokens := 0, completion_tokens := 0,
    source := "error", is_estimated := false }

/-- The estimation fallback: length of the rendered prompt and of the
stringified result, each integer-divided by 4. -/
def estimationUsage (renderedPrompt resultStr : String) : TokenUsage :=
  let estimated_prompt_tokens := renderedPrompt.length / 4
  let estimated_completion_tokens := resultStr.length / 4
  { total_tokens := estimated_prompt_tokens + estimated_completion_tokens,
    prompt_tokens := estimated_prompt_tokens,
    completion_tokens := estimated_completion_tokens,
    source := "estimation", is_estimated := true }

/-- Whether Python str.format succeeds: every placeholder of the
template has a binding among the supplied keys. -/
def pyFormatOk (placeholders keys : List String) : Bool :=
  placeholders.all (fun p => keys.contains p)

/-- The final shape normalisation both implementations perform on the
parsed result: a dictionary result is passed through, anything else
collapses to an empty record. -/
def normalizeResultShape (res : JVal) : JVal :=
  match res with
  | .obj kvs => .obj kvs
  | _ => .obj []

/-- Embedding of the module-level extract_with_llm of
src/llm_service.py.  placeholders are the named holes of the prompt
template, inputKeys the keys of input_data; the chain formats the
PromptTemplate, whose partial_variables supply format_instructions, so
chain invocation fails when any other placeholder is missing.  When
the callback reports zero total tokens, the estimation fallback runs
on the same PromptTemplate rendering (prompt.format), which cannot
fail once invocation has succeeded.  Any exception is converted into
an empty result plus the zeroed error usage. -/
def extract_with_llm (placeholders inputKeys : List String)
    (llmOutcome : Except Unit (JVal × CbUsage))
    (renderedPrompt resultStr : String) : JVal × TokenUsage :=
  if !pyFormatOk placeholders (inputKeys ++ ["format_instructions"]) then
    (.obj [], errorTokenUsage)
  else
    match llmOutcome with
    | .error _ => (.obj [], errorTokenUsage)
    | .ok (res, cb) =>
      if cb.total_tokens = 0 then
        (normalizeResultShape res, estimationUsage renderedPrompt resultStr)
      else
        (normalizeResultShape res,
         { total_tokens := cb.total_tokens, prompt_tokens := cb.prompt_tokens,
           completion_tokens := cb.completion_tokens, source := cb.source,
           is_estimated := false })

/-- Embedding of LLMService.extract_with_llm of
src/cvinsight/core/llm_service.py.  Identical to the module version
except in the estimation branch, which formats the RAW template string
with input_data (prompt_template.format(**input_data), line 198): that
call raises KeyError whenever the template contains a placeholder not
in input_data, in particular the format_instructions placeholder every
extractor template carries, and the exception lands in the outer
handler. -/
def LLMService_extract_with_llm (placeholders inputKeys : List String)
    (llmOutcome : Except Unit (JVal × CbUsage))
    (renderedPrompt resultStr : String) : JVal × TokenUsage :=
  if !pyFormatOk placeholders (inputKeys ++ ["format_instructions"]) then
    (.obj [], errorTokenUsage)
  else
    match llmOutcome with
    | .error _ => (.obj [], errorTokenUsage)
    | .ok (res, cb) =>
      if cb.total_tokens = 0 then
        if pyFormatOk placeholders inputKeys then
          (normalizeResultShape res, estimationUsage renderedPrompt resultStr)
        else
          (.obj [], errorTokenUsage)
      else
        (normalizeResultShape res,
         { total_tokens := cb.total_tokens, prompt_tokens := cb.prompt_tokens,
           completion_tokens := cb.completion_tokens, source := cb.source,
           is_estimated := false })

/-! Embedding of the token aggregation loop of
ResumeProcessor.process_resume (src/resume_processor.py lines 86-139). -/

/-- One extractor usage as the loop reads it: the .get defaults of the
source make every field total (extractor defaults to "unknown",
is_estimated to False, counts to 0). -/
structure ExtUsage where
  extractor : String
  total_tokens : ℕ
  prompt_tokens : ℕ
  completion_tokens : ℕ
  source : String
  is_estimated : Bool

/-- A by_extractor breakdown entry. -/
structure BreakdownEntry where
  total_tokens : ℕ
  prompt_tokens : ℕ
  completion_tokens : ℕ
  source : String

/-- The aggregated total_token_usage dictionary. -/
structure TotalUsage where
  total_tokens : ℕ
  prompt_tokens : ℕ
  completion_tokens : ℕ
  by_extractor : List (String × BreakdownEntry)
  source : String
  is_estimated : Bool

/-- Python d[k] = v on the by_extractor dictionary. -/
def bdSet : List (String × BreakdownEntry) → String → BreakdownEntry →
    List (String × BreakdownEntry)
  | [], k, v => [(k, v)]
  | (k0, v0) :: t, k, v =>
      if k0 = k then (k, v) :: t else (k0, v0) :: bdSet t k v

/-- The initial total_token_usage dictionary of process_resume
(is_estimated is the absent-key default). -/
def initTotalUsage : TotalUsage :=
  { total_tokens := 0, prompt_tokens := 0, completion_tokens := 0,
    by_extractor := [], source := "multiple", is_estimated := false }

/-- The body of the aggregation loop: add this usage into the running
totals and record its breakdown entry, returning also whether this
usage was estimated. -/
def aggStep (t : TotalUsage) (u : ExtUsage) : TotalUsage :=
  { t with
    total_tokens := t.total_tokens + u.total_tokens,
    prompt_tokens := t.prompt_tokens + u.prompt_tokens,
    completion_tokens := t.completion_tokens + u.completion_tokens,
    by_extractor := bdSet t.by_extractor u.extractor
      { total_tokens := u.total_tokens, prompt_tokens := u.prompt_tokens,
        completion_tokens := u.completion_tokens, source := u.source } }

/-- The whole aggregation loop followed by the estimation marking: the
is_using_estimation flag is raised when any usage is estimated, and in
that case is_estimated True and source "estimation" are written on the
consolidated usage. -/
def aggregateTokenUsage (usages : List ExtUsage) : TotalUsage :=
  let t := usages.foldl aggStep initTotalUsage
  if usages.any (fun u => u.is_estimated) then
    { t with is_estimated := true, source := "estimation" }
  else t

/-! Embedding of the output-normalisation paths of the extractor
contract named by the spec: BaseExtractor.process_simple_output
(src/extractors/base_extractor.py lines 93-111) and the normalisation
section of ExperienceExtractorPlugin.extract
(src/cvinsight/base_plugins/experience_extractor/__init__.py lines
112-147). -/

/-- process_simple_output: for every requested field, bind it to the
value from the raw output, with None for a field the LLM omitted (the
dict branch uses output.get(field), the object branch
getattr(output, field, None): both read as pyGet). -/
def process_simple_output (output : PyDict) (field_names : List String) : PyDict :=
  field_names.map (fun f => (f, pyGet output f))

/-- Python len() on a value: defined for sized containers and strings,
a TypeError otherwise. -/
def pyLen : JVal → Except Unit ℕ
  | .arr xs => .ok xs.length
  | .s v => .ok v.length
  | .obj kvs => .ok kvs.length
  | _ => .error ()

/-- The per-entry defaulting of the plugin loop (lines 135-142): every
falsy or missing field of a work-experience entry dictionary is
replaced by its documented default. -/
def normExperienceEntry (e : PyDict) : PyDict :=
  let e1 := pySet e "company" (pyOrJ (pyGet e "company") (.s "Unknown Company"))
  let e2 := pySet e1 "start_date" (pyOrJ (pyGet e1 "start_date") (.s ""))
  let e3 := pySet e2 "end_date" (pyOrJ (pyGet e2 "end_date") (.s ""))
  let e4 := pySet e3 "location" (pyOrJ (pyGet e3 "location") (.s "Not specified"))
  pySet e4 "role" (pyOrJ (pyGet e4 "role") (.s "Unknown Role"))

/-- The normalisation section of ExperienceExtractorPlugin.extract:
read work_experiences with default [], take len() of it (which raises
on a None or numeric value), then walk the entries defaulting every
dictionary entry in place; iterating a string or dictionary container
yields immutable non-dictionary items, leaving the container as is. -/
def experiencePluginNormalize (result : JVal) : Except Unit PyDict :=
  let wes := match result with
    | .obj kvs => (List.lookup "work_experiences" kvs).getD (.arr [])
    | _ => .arr []
  match pyLen wes with
  | .error _ => .error ()
  | .ok _ =>
    let wes2 := match wes with
      | .arr xs => JVal.arr (xs.map (fun x => match x with
          | .obj e => .obj (normExperienceEntry e)
          | other => other))
      | other => other
    .ok [("work_experiences", wes2)]

/-! Embedding of the phased orchestrator
extract_with_optimized_plugins and of parse_single_resume
(src/cvinsight/notebook_utils.py, lines 66-138 and 213-422).  Each
extractor call is abstracted as its outcome (the dictionary it
returned, or an exception); the per-future handlers of each phase
convert a failed outcome into an empty dictionary.  The pool flags
model the outer try of each phase block (executor setup failure), true
in normal operation. -/

/-- Result dictionary of a settled extractor call: the returned value
on success, the empty dictionary written by the except handler on
failure. -/
def settleOr (e : Except Unit PyDict) : PyDict :=
  match e with
  | .ok d => d
  | .error _ => []

/-- First maximal digit run of a string, as re.findall of one-or-more
digits reads its first match. -/
def firstDigitRun : List Char → Option (List Char)
  | [] => none
  | c :: t => if c.isDigit then some (c :: t.takeWhile Char.isDigit) else firstDigitRun t

/-- Numeric value of a digit run. -/
def digitsToNat (cs : List Char) : ℕ :=
  cs.foldl (fun a c => a * 10 + (c.toNat - 48)) 0

/-- safe_float_convert of notebook_utils (lines 377-386): None maps to
0, numbers (including booleans, which Python treats as integers) pass
through, a string contributes its first embedded integer, anything
else 0. -/
def safe_float_convert : JVal → ℚ
  | .null => 0
  | .q v => v
  | .b v => if v then 1 else 0
  | .s str =>
    match firstDigitRun str.data with
    | some run => (digitsToNat run : ℚ)
    | none => 0
  | _ => 0

/-- The in-place mutation of work-experience entries for 'present'
end dates (lines 345-349).  A non-dictionary entry, or an end_date
value that is not a string, raises inside the loop: the exception is
caught by the surrounding handler, so entries already processed keep
their mutation and the rest stay untouched. -/
def mutateExperienceEntries (d : String) : List JVal → List JVal
  | [] => []
  | .obj e :: rest =>
    match pyGetD e "end_date" (.s "") with
    | .s sEnd =>
      let e' := if pyLower sEnd = "present"
        then pySet (pySet e "calculated_end_date" (.s d)) "is_present" (.b true)
        else e
      .obj e' :: mutateExperienceEntries d rest
    | _ => .obj e :: rest
  | v :: rest => v :: rest

/-- The 'present'-handling block (lines 336-351): runs only when a
truthy submission date was supplied and the experience result has a
truthy work_experiences value; dateParseOk is the outcome of
datetime.strptime on the date string (its failure is caught and leaves
the dictionary unchanged).  The mutated entry keeps the submission
date string itself as calculated_end_date, which is the strftime
round-trip of a well-formed date. -/
def presentHandling (dateParseOk : Bool) (dateSub : Option String) (expDict : PyDict) : PyDict :=
  match dateSub with
  | none => expDict
  | some d =>
    if d = "" then expDict
    else if !truthy (pyGet expDict "work_experiences") then expDict
    else if !dateParseOk then expDict
    else
      match List.lookup "work_experiences" expDict with
      | some (.arr xs) => pySet expDict "work_experiences" (.arr (mutateExperienceEntries d xs))
      | _ => expDict

/-- The result-object construction of extract_with_optimized_plugins
(lines 353-420), keys in source insertion order. -/
def buildOptimizedResult (profile skills education experience social
    yoe eduStats workStats relevantYoe : PyDict)
    (fileName : String) (dateSub jobDesc : Option String) (procTime : ℚ) : PyDict :=
  let yoeStr := pyGetD yoe "YoE" (.s "")
  let yoeVal := pyGetD yoe "YoE" (.q 0)
  let eduVal := pyGetD eduStats "education_years" (.q 0)
  [("name", pyGetD profile "name" (.s "")),
   ("contact_number", pyGetD profile "contact_number" (.s "")),
   ("email", pyGetD profile "email" (.s "")),
   ("skills", pyGetD skills "skills" (.arr [])),
   ("educations", pyGetD education "educations" (.arr [])),
   ("work_experiences", pyGetD experience "work_experiences" (.arr [])),
   ("YoE", yoeStr),
   ("all_work_yoe", yoeStr),
   ("all_edu_yoe", eduVal),
   ("all_work_yoe_numeric", .q (safe_float_convert yoeVal)),
   ("all_edu_yoe_numeric", .q (safe_float_convert eduVal)),
   ("all_total_yoe", .q (safe_float_convert yoeVal + safe_float_convert eduVal)),
   ("relevant_work_yoe", pyGetD relevantYoe "relevant_job_experience_years" (.q 0)),
   ("relevant_edu_yoe", pyGetD relevantYoe "relevant_education_years" (.q 0)),
   ("relevant_total_yoe", pyGetD relevantYoe "total_relevant_experience_years" (.q 0)),
   ("file_name", .s fileName),
   ("date_of_resume_submission", match dateSub with | some d => .s d | none => .null),
   ("job_description_provided", .b (match jobDesc with | some j => j ≠ "" | none => false)),
   ("plugin_data", .obj [("relevant_yoe_extractor", .obj relevantYoe),
                         ("education_stats_extractor", .obj eduStats),
                         ("work_stats_extractor", .obj workStats),
                         ("social_extractor", .obj social)]),
   ("processing_time", .q procTime)]

/-- Embedding of extract_with_optimized_plugins.  Phase 1 settles the
five independent extract calls, an exception becoming an empty
dictionary; phase 2 runs the three dependent extractors on the joined
phase-1 dictionaries; phase 3 runs the relevant-YoE extractor on the
raw text and the education stats, with the caller job description and
submission date forwarded.  relevantF abstracts the plugin call
including its own exception handler input. -/
def extract_with_optimized_plugins (text : String) (pool1Ok pool2Ok : Bool)
    (p sk ed ex so : Except Unit PyDict)
    (yoeF eduStatsF workStatsF : PyDict → Except Unit PyDict)
    (relevantF : String → PyDict → Option String → Option String → Except Unit PyDict)
    (jobDesc dateSub : Option String) (dateParseOk : Bool)
    (fileName : String) (procTime : ℚ) : PyDict :=
  let profileR := if pool1Ok then settleOr p else []
  let skillsR := if pool1Ok then settleOr sk else []
  let educationR := if pool1Ok then settleOr ed else []
  let experienceR := if pool1Ok then settleOr ex else []
  let socialR := if pool1Ok then settleOr so else []
  let yoeR := if pool2Ok then settleOr (yoeF experienceR) else []
  let eduStatsR := if pool2Ok then settleOr (eduStatsF educationR) else []
  let workStatsR := if pool2Ok then settleOr (workStatsF experienceR) else []
  let relevantR := settleOr (relevantF text eduStatsR jobDesc dateSub)
  let experienceR2 := presentHandling dateParseOk dateSub experienceR
  buildOptimizedResult profileR skillsR educationR experienceR2 socialR
    yoeR eduStatsR workStatsR relevantR fileName dateSub jobDesc procTime

/-- The custom plugin names flattened by parse_single_resume. -/
def customPluginNames : List String :=
  ["relevant_yoe_extractor", "education_stats_extractor",
   "work_stats_extractor", "social_extractor"]

/-- The plugin_data loop of parse_single_resume (lines 106-114): each
custom plugin whose entry is a dictionary contributes its sub-keys
prefixed with the plugin name, a non-dictionary entry is copied under
the plugin name itself. -/
def pluginPart (pd : PyDict) : PyDict :=
  customPluginNames.foldl (fun acc k =>
      match List.lookup k pd with
      | some (.obj sub) => acc ++ sub.map (fun kv => (k ++ "_" ++ kv.1, kv.2))
      | some v => acc ++ [(k, v)]
      | none => acc) []

/-- The flattening step of parse_single_resume (lines 94-120):
plugin_data sub-dictionaries become prefixed columns, then every other
top-level key is copied across. -/
def flattenExtraction (er : PyDict) : PyDict :=
  let pd := match List.lookup "plugin_data" er with
    | some (.obj kvs) => kvs
    | _ => []
  pluginPart pd ++ er.filter (fun kv =>
      kv.1 ≠ "plugin_data" && !(customPluginNames.contains kv.1))

/-- Embedding of parse_single_resume: a read_file failure is caught by
the outer handler and yields the failed record; otherwise the
orchestrated extraction runs, its result is flattened, and the
filename and success status are appended. -/
def parse_single_resume (readFileOutcome : Except Unit String)
    (pool1Ok pool2Ok : Bool) (p sk ed ex so : Except Unit PyDict)
    (yoeF eduStatsF workStatsF : PyDict → Except Unit PyDict)
    (relevantF : String → PyDict → Option String → Option String → Except Unit PyDict)
    (jobDesc dateSub : Option String) (dateParseOk : Bool)
    (fileName : String) (procTime : ℚ) : PyDict :=
  match readFileOutcome with
  | .error _ =>
    [("filename", .s fileName), ("parsing_status", .s "failed"),
     ("error", .s "read_file raised")]
  | .ok text =>
    flattenExtraction
      (extract_with_optimized_plugins text pool1Ok pool2Ok p sk ed ex so
        yoeF eduStatsF workStatsF relevantF jobDesc dateSub dateParseOk fileName procTime)
      ++ [("filename", .s fileName), ("parsing_status", .s "success")]

/-! Embedding of ResumeProcessor.process_resume
(src/resume_processor.py, lines 60-152).  This older orchestrator has
no per-future exception handling: the five future.result() calls
re-raise any extractor exception into the document-level handler,
which returns None. -/

/-- Resume.from_extractors_output (src/models.py): the merged record. -/
def fromExtractorsOutput (profile skills education experience yoe : PyDict)
    (fileName : String) : PyDict :=
  [("name", pyGet profile "name"),
   ("contact_number", pyGet profile "contact_number"),
   ("email", pyGet profile "email"),
   ("skills", pyGetD skills "skills" (.arr [])),
   ("educations", pyGetD education "educations" (.arr [])),
   ("work_experiences", pyGetD experience "work_experiences" (.arr [])),
   ("YoE", pyGet yoe "YoE"),
   ("file_name", .s fileName)]

/-- Embedding of ResumeProcessor.process_resume: validation failure or
a read_file exception ends the document; otherwise the five extract
outcomes are joined, and any exception among them propagates to the
document-level handler, which returns None.  On full success the
merged record is built and the token usages aggregated. -/
def process_resume (validateOk readOk : Bool)
    (profile skills education experience yoe : Except Unit (PyDict × ExtUsage))
    (fileName : String) : Option (PyDict × TotalUsage) :=
  if !validateOk then none
  else if !readOk then none
  else
    match profile, skills, education, experience, yoe with
    | .ok (pd, pu), .ok (sd, su), .ok (ed, eu), .ok (xd, xu), .ok (yd, yu) =>
      some (fromExtractorsOutput pd sd ed xd yd fileName,
            aggregateTokenUsage [pu, su, eu, xu, yu])
    | _, _, _, _, _ => none

/-! Temporal model of the phase structure of
extract_with_optimized_plugins.  Each extractor call has a dispatch
time (executor.submit, or the synchronous phase-3 call) and a settle
time (its thread finishes, normally or exceptionally).  Each pooled
phase has a join time: the exit of its with-block, at which
ThreadPoolExecutor.shutdown(wait=True) has waited for every submitted
task, even one whose future.result(timeout=60) already timed out.
The orchestrator thread only reaches the next phase after that exit. -/

/-- The phase-1 extractor registry keys, in submission order. -/
def phase1Extractors : List String :=
  ["profile_extractor", "skills_extractor", "education_extractor",
   "experience_extractor", "social_extractor"]

/-- The phase-2 extractor registry keys. -/
def phase2Extractors : List String :=
  ["yoe_extractor", "education_stats_extractor", "work_stats_extractor"]

/-- The phase-3 extractor registry keys. -/
def phase3Extractors : List String :=
  ["relevant_yoe_extractor"]

/-- A timing of one document run: when each extractor was dispatched
and settled, and when each pooled phase joined. -/
structure Schedule where
  dispatchTime : String → ℕ
  settleTime : String → ℕ
  phaseJoinTime : ℕ → ℕ

/-- The orderings every execution of extract_with_optimized_plugins
satisfies: a call settles after it is dispatched; the with-block exit
of a pooled phase waits for all its tasks (shutdown with wait);
and the orchestrator dispatches phase 2 only after the phase-1 block
has exited, phase 3 only after the phase-2 block has exited. -/
def ValidSchedule (sc : Schedule) : Prop :=
  (∀ n ∈ phase1Extractors ++ phase2Extractors ++ phase3Extractors,
     sc.dispatchTime n < sc.settleTime n) ∧
  (∀ n ∈ phase1Extractors, sc.settleTime n ≤ sc.phaseJoinTime 1) ∧
  (∀ n ∈ phase2Extractors, sc.settleTime n ≤ sc.phaseJoinTime 2) ∧
  (∀ n ∈ phase2Extractors, sc.phaseJoinTime 1 < sc.dispatchTime n) ∧
  (∀ n ∈ phase3Extractors, sc.phaseJoinTime 2 < sc.dispatchTime n)

/-- A concrete schedule realising the model (used to show the model is
inhabited): submissions, settlements and joins in textual order. -/
def sampleSchedule : Schedule where
  dispatchTime n :=
    if n = "profile_extractor" then 0
    else if n = "skills_extractor" then 1
    else if n = "education_extractor" then 2
    else if n = "experience_extractor" then 3
    else if n = "social_extractor" then 4
    else if n = "yoe_extractor" then 11
    else if n = "education_stats_extractor" then 12
    else if n = "work_stats_extractor" then 13
    else if n = "relevant_yoe_extractor" then 18
    else 0
  settleTime n :=
    if n = "profile_extractor" then 5
    else if n = "skills_extractor" then 6
    else if n = "education_extractor" then 7
    else if n = "experience_extractor" then 8
    else if n = "social_extractor" then 9
    else if n = "yoe_extractor" then 14
    else if n = "education_stats_extractor" then 15
    else if n = "work_stats_extractor" then 16
    else if n = "relevant_yoe_extractor" then 19
    else 1
  phaseJoinTime ph :=
    if ph = 1 then 10 else if ph = 2 then 17 else 20

/-! Helper lemmas about association-list lookup. -/

/-- Lookup distributes over append when the key is absent on the left. -/
theorem lookup_append_none {β : Type} (k : String) (l1 l2 : List (String × β))
    (h : List.lookup k l1 = none) : List.lookup k (l1 ++ l2) = List.lookup k l2 := by
  induction l1 with
  | nil => rfl
  | cons a t ih =>
    simp only [List.cons_append, List.lookup] at h ⊢
    cases hka : (k == a.1) with
    | false =>
      rw [hka] at h
      exact ih h
    | true =>
      rw [hka] at h
      exact Option.noConfusion h

/-- Lookup of a short key skips a block of entries whose keys all carry
a longer prefix. -/
theorem lookup_map_prefixed_none (pre k : String) (sub : PyDict)
    (h : k.length < pre.length) :
    List.lookup k (sub.map (fun kv => (pre ++ kv.1, kv.2))) = none := by
  induction sub with
  | nil => rfl
  | cons a t ih =>
    simp only [List.map_cons, List.lookup]
    have hne : ((k == pre ++ a.1) : Bool) = false := by
      rw [beq_eq_false_iff_ne]
      intro he
      have hl := congrArg String.length he
      rw [String.length_append] at hl
      omega
    rw [hne]
    exact ih

/-- A key absent from a list is absent from any filtered version. -/
theorem lookup_filter_none {β : Type} (k : String) (l : List (String × β))
    (pr : String × β → Bool) (h : List.lookup k l = none) :
    List.lookup k (l.filter pr) = none := by
  induction l with
  | nil => rfl
  | cons a t ih =>
    simp only [List.lookup] at h
    cases hka : (k == a.1) with
    | false =>
      rw [hka] at h
      rw [List.filter]
      cases pr a with
      | false => exact ih h
      | true =>
        simp only [List.lookup]
        rw [hka]
        exact ih h
    | true =>
      rw [hka] at h
      exact Option.noConfusion h

/-- Lookup after a Python dictionary assignment, same key. -/
theorem lookup_pySet_self (d : PyDict) (k : String) (v : JVal) :
    List.lookup k (pySet d k v) = some v := by
  induction d with
  | nil => simp [pySet, List.lookup]
  | cons a t ih =>
    rw [pySet]
    by_cases hk : a.1 = k
    · simp [hk, List.lookup]
    · simp only [if_neg hk, List.lookup]
      rw [show ((k == a.1) : Bool) = false from beq_eq_false_iff_ne.mpr (fun he => hk he.symm)]
      exact ih

/-- Lookup after a Python dictionary assignment, other key. -/
theorem lookup_pySet_ne (d : PyDict) (k k0 : String) (v : JVal) (h : k ≠ k0) :
    List.lookup k (pySet d k0 v) = List.lookup k d := by
  induction d with
  | nil =>
    simp only [pySet, List.lookup]
    rw [show ((k == k0) : Bool) = false from beq_eq_false_iff_ne.mpr h]
  | cons a t ih =>
    rw [pySet]
    by_cases hk : a.1 = k0
    · simp only [if_pos hk, List.lookup]
      rw [show ((k == k0) : Bool) = false from beq_eq_false_iff_ne.mpr h,
        show ((k == a.1) : Bool) = false from beq_eq_false_iff_ne.mpr (by rw [hk]; exact h)]
    · rw [if_neg hk]
      simp only [List.lookup]
      cases hka : (k == a.1) with
      | false => exact ih
      | true => rfl

/-- The plugin-data flattening loop never produces a short key: every
column it emits is either a plugin name (16 characters or more) or a
plugin name plus an underscore prefix on a sub-key. -/
theorem lookup_pluginFold_none (k : String) (pd : PyDict) (hk : k.length < 16)
    (names : List String) (hnames : ∀ n ∈ names, 16 ≤ n.length)
    (acc : PyDict) (hacc : List.lookup k acc = none) :
    List.lookup k (names.foldl (fun acc n =>
      match List.lookup n pd with
      | some (.obj sub) => acc ++ sub.map (fun kv => (n ++ "_" ++ kv.1, kv.2))
      | some v => acc ++ [(n, v)]
      | none => acc) acc) = none := by
  induction names generalizing acc with
  | nil => exact hacc
  | cons n t ih =>
    rw [List.foldl_cons]
    have hn : 16 ≤ n.length := hnames n (List.mem_cons_self n t)
    have ht : ∀ m ∈ t, 16 ≤ m.length := fun m hm => hnames m (List.mem_cons_of_mem n hm)
    have hkn : ((k == n) : Bool) = false :=
      beq_eq_false_iff_ne.mpr (fun he => by rw [he] at hk; omega)
    apply ih ht
    rcases hpd : List.lookup n pd with _ | v
    · simpa [hpd] using hacc
    · rcases v with _ | sv | qv | bv | xs | sub
      all_goals simp only [hpd]
      case obj =>
        rw [lookup_append_none k acc _ hacc]
        have hlen : k.length < (n ++ "_").length := by
          rw [String.length_append]
          omega
        rw [show (fun kv : String × JVal => (n ++ "_" ++ kv.1, kv.2)) =
              (fun kv : String × JVal => ((n ++ "_") ++ kv.1, kv.2)) from rfl]
        exact lookup_map_prefixed_none (n ++ "_") k sub hlen
      all_goals
        rw [lookup_append_none k acc _ hacc]
        simp only [List.lookup]
        rw [hkn]

/-- Claim C2: in every run of the phased orchestrator, no extractor of
phase N+1 is dispatched before every extractor launched in phase N has
settled: phase-2 extractors are submitted only after the phase-1
with-block has joined all its tasks, and the phase-3 call starts only
after the phase-2 with-block has joined, so phase-2 extractors observe
only fully-joined phase-1 results and phase-3 extractors only
fully-joined phase-2 results. -/
theorem c2_phase_full_join_before_next_dispatch (sc : Schedule) (h : ValidSchedule sc) :
    (∀ n ∈ phase1Extractors, ∀ m ∈ phase2Extractors,
       sc.settleTime n < sc.dispatchTime m) ∧
    (∀ n ∈ phase2Extractors, ∀ m ∈ phase3Extractors,
       sc.settleTime n < sc.dispatchTime m) := by
  obtain ⟨_, h2, h3, h4, h5⟩ := h
  refine ⟨?_, ?_⟩ <;> intro n hn m hm
  · exact lt_of_le_of_lt (h2 n hn) (h4 m hm)
  · exact lt_of_le_of_lt (h3 n hn) (h5 m hm)

/-- Witness for C2: the sample schedule satisfies the model and the
ordering conclusion at concrete times. -/
theorem c2_witness :
    ValidSchedule sampleSchedule ∧
    (∀ n ∈ phase1Extractors, ∀ m ∈ phase2Extractors,
       sampleSchedule.settleTime n < sampleSchedule.dispatchTime m) ∧
    (∀ n ∈ phase2Extractors, ∀ m ∈ phase3Extractors,
       sampleSchedule.settleTime n < sampleSchedule.dispatchTime m) := by
  have hv : ValidSchedule sampleSchedule := by
    constructor
    · decide
    · exact ⟨by decide, by decide, by decide, by decide⟩
  have hc := c2_phase_full_join_before_next_dispatch sampleSchedule hv
  exact ⟨hv, hc.1, hc.2⟩

/-- Claim C9: a RelevantYoEExtractorPlugin.extract call that
temporarily overrides the instance job_description or submission date
through additional_params leaves the instance configuration exactly as
it found it, on the success path and on the exception path alike,
because the try/finally restores both saved fields whatever the body
did. -/
theorem c9_extract_restores_instance_state (st : RYState) (params : Option AddParams)
    (body : RYState → Except Unit (RelevantYearsOfExperience × PyDict)) :
    (ryExtract st params body).2 = st := by
  cases st
  rfl

/-- Claim C4, for both implementations of extract_with_llm: whenever
chain construction or formatting fails, whenever the chain invocation
or parsing raises, and (in the core service) whenever the estimation
branch itself raises, the function returns the empty result together
with the zeroed usage tagged source error; the embedding is a total
function, so no exception ever reaches the caller. -/
theorem c4_error_fallback (placeholders inputKeys : List String)
    (llmOutcome : Except Unit (JVal × CbUsage)) (renderedPrompt resultStr : String) :
    (llmOutcome = .error () →
       extract_with_llm placeholders inputKeys llmOutcome renderedPrompt resultStr =
         (.obj [], errorTokenUsage) ∧
       LLMService_extract_with_llm placeholders inputKeys llmOutcome renderedPrompt resultStr =
         (.obj [], errorTokenUsage)) ∧
    (pyFormatOk placeholders (inputKeys ++ ["format_instructions"]) = false →
       extract_with_llm placeholders inputKeys llmOutcome renderedPrompt resultStr =
         (.obj [], errorTokenUsage) ∧
       LLMService_extract_with_llm placeholders inputKeys llmOutcome renderedPrompt resultStr =
         (.obj [], errorTokenUsage)) ∧
    (∀ res cb, llmOutcome = .ok (res, cb) → cb.total_tokens = 0 →
       pyFormatOk placeholders inputKeys = false →
       LLMService_extract_with_llm placeholders inputKeys llmOutcome renderedPrompt resultStr =
         (.obj [], errorTokenUsage)) ∧
    errorTokenUsage.total_tokens = 0 ∧ errorTokenUsage.prompt_tokens = 0 ∧
    errorTokenUsage.completion_tokens = 0 ∧ errorTokenUsage.source = "error" := by
  refine ⟨?_, ?_, ?_, rfl, rfl, rfl, rfl⟩
  · rintro rfl
    constructor
    · simp only [extract_with_llm]
      split <;> rfl
    · simp only [LLMService_extract_with_llm]
      split <;> rfl
  · intro hf
    constructor
    · simp only [extract_with_llm, hf]
      rfl
    · simp only [LLMService_extract_with_llm, hf]
      rfl
  · rintro res cb rfl h0 hraw
    simp only [LLMService_extract_with_llm]
    split
    · rfl
    · simp [h0, hraw]

/-- Witness for C4: both implementations at a concrete failing
invocation return the empty dictionary and the zeroed error usage. -/
theorem c4_witness :
    extract_with_llm ["text", "format_instructions"] ["text"] (.error ()) "p" "r" =
      (.obj [], errorTokenUsage) ∧
    LLMService_extract_with_llm ["text", "format_instructions"] ["text"] (.error ()) "p" "r" =
      (.obj [], errorTokenUsage) :=
  (c4_error_fallback ["text", "format_instructions"] ["text"] (.error ()) "p" "r").1 rfl

/-- Claim C3: when the provider-reported usage totals zero, the
module-level extract_with_llm of src/llm_service.py returns the parsed
result with a usage record of source estimation, is_estimated true,
prompt_tokens the rendered prompt length over 4, completion_tokens the
stringified result length over 4, and their sum as total (here the
rendered prompt has 40 characters and the stringified result 12, so
10, 3 and 13).  The core LLMService.extract_with_llm of
src/cvinsight/core/llm_service.py, on the identical invocation with a
template that carries the format_instructions placeholder (every
extractor template does), instead discards the parsed result and
returns the zeroed usage tagged source error: its estimation branch
formats the raw template string against input_data, the missing
format_instructions binding raises KeyError, and the outer handler
swallows the parsed result.  This contradicts the claim and the
estimation intent stated by the code itself. -/
theorem c3_estimation_fallback_and_core_divergence :
    extract_with_llm ["text", "format_instructions"] ["text"]
        (.ok (.obj [("YoE", .s "5")],
              { total_tokens := 0, prompt_tokens := 0, completion_tokens := 0,
                source := "not_set" }))
        "Extract information from the resume now." "0123456789AB" =
      (.obj [("YoE", .s "5")],
       { total_tokens := 13, prompt_tokens := 10, completion_tokens := 3,
         source := "estimation", is_estimated := true }) ∧
    LLMService_extract_with_llm ["text", "format_instructions"] ["text"]
        (.ok (.obj [("YoE", .s "5")],
              { total_tokens := 0, prompt_tokens := 0, completion_tokens := 0,
                source := "not_set" }))
        "Extract information from the resume now." "0123456789AB" =
      (.obj [], errorTokenUsage) ∧
    errorTokenUsage.source = "error" ∧
    ("error" : String) ≠ "estimation" := by
  refine ⟨rfl, rfl, rfl, by decide⟩

/-- Counterexample to claim C6 as stated: the claim says an unmatched
degree string containing "engineer" returns the Bachelor values, but
the source guards the engineer inference with a test that the string
contains none of "master", "phd", "doctor"; the unmatched string
"engineer doctor" contains "engineer" yet the function returns the
conservative default 1.0 (completed), not 4.0. -/
theorem c6_counterexample :
    map_degree_to_years (some ⟨true, some "engineer doctor", some "completed"⟩) = some 1 ∧
    matchesAny (lowerIfTruthy (some "engineer doctor")) phdTerms = false ∧
    matchesAny (lowerIfTruthy (some "engineer doctor")) mastersTerms = false ∧
    matchesAny (lowerIfTruthy (some "engineer doctor")) bachelorTerms = false ∧
    matchesAny (lowerIfTruthy (some "engineer doctor")) associateTerms = false ∧
    matchesAny (lowerIfTruthy (some "engineer doctor")) diplomaTerms = false ∧
    strContains (lowerIfTruthy (some "engineer doctor")) "engineer" = true ∧
    map_degree_to_years (some ⟨true, some "engineer doctor", some "completed"⟩) ≠ some 4 := by
  refine ⟨by decide, by decide, by decide, by decide, by decide, by decide, by decide, by decide⟩

/-- Claim C6 as amended: map_degree_to_years is a function of the
degree string and status performing ordered keyword matching — a
PhD-family match returns 8 completed and 7 pursuing, then a Master
match 6/3, then Bachelor 4/2 (e.g. BSc Computer Science), then
Associate 2/1, then Diploma/Certificate 1/0.5; an unmatched string
containing "engineer" AND none of "master"/"phd"/"doctor" returns the
Bachelor values; any other unmatched string (e.g. Xyzzy Studies, or
"engineer doctor") returns the conservative default 1 completed and
0.5 pursuing. -/
theorem c6_degree_mapping_amended :
    (∀ d st : String,
      (matchesAny (lowerIfTruthy (some d)) phdTerms = true →
        map_degree_to_years (some ⟨true, some d, some st⟩) =
          some (if lowerIfTruthy (some st) = "pursuing" then 7 else 8)) ∧
      (matchesAny (lowerIfTruthy (some d)) phdTerms = false →
       matchesAny (lowerIfTruthy (some d)) mastersTerms = true →
        map_degree_to_years (some ⟨true, some d, some st⟩) =
          some (if lowerIfTruthy (some st) = "pursuing" then 3 else 6)) ∧
      (matchesAny (lowerIfTruthy (some d)) phdTerms = false →
       matchesAny (lowerIfTruthy (some d)) mastersTerms = false →
       matchesAny (lowerIfTruthy (some d)) bachelorTerms = true →
        map_degree_to_years (some ⟨true, some d, some st⟩) =
          some (if lowerIfTruthy (some st) = "pursuing" then 2 else 4)) ∧
      (matchesAny (lowerIfTruthy (some d)) phdTerms = false →
       matchesAny (lowerIfTruthy (some d)) mastersTerms = false →
       matchesAny (lowerIfTruthy (some d)) bachelorTerms = false →
       matchesAny (lowerIfTruthy (some d)) associateTerms = true →
        map_degree_to_years (some ⟨true, some d, some st⟩) =
          some (if lowerIfTruthy (some st) = "pursuing" then 1 else 2)) ∧
      (matchesAny (lowerIfTruthy (some d)) phdTerms = false →
       matchesAny (lowerIfTruthy (some d)) mastersTerms = false →
       matchesAny (lowerIfTruthy (some d)) bachelorTerms = false →
       matchesAny (lowerIfTruthy (some d)) associateTerms = false →
       matchesAny (lowerIfTruthy (some d)) diplomaTerms = true →
        map_degree_to_years (some ⟨true, some d, some st⟩) =
          some (if lowerIfTruthy (some st) = "pursuing" then 1/2 else 1)) ∧
      (matchesAny (lowerIfTruthy (some d)) phdTerms = false →
       matchesAny (lowerIfTruthy (some d)) mastersTerms = false →
       matchesAny (lowerIfTruthy (some d)) bachelorTerms = false →
       matchesAny (lowerIfTruthy (some d)) associateTerms = false →
       matchesAny (lowerIfTruthy (some d)) diplomaTerms = false →
       (strContains (lowerIfTruthy (some d)) "engineer" &&
          !(matchesAny (lowerIfTruthy (some d)) ["master", "phd", "doctor"])) = true →
        map_degree_to_years (some ⟨true, some d, some st⟩) =
          some (if lowerIfTruthy (some st) = "pursuing" then 2 else 4)) ∧
      (matchesAny (lowerIfTruthy (some d)) phdTerms = false →
       matchesAny (lowerIfTruthy (some d)) mastersTerms = false →
       matchesAny (lowerIfTruthy (some d)) bachelorTerms = false →
       matchesAny (lowerIfTruthy (some d)) associateTerms = false →
       matchesAny (lowerIfTruthy (some d)) diplomaTerms = false →
       (strContains (lowerIfTruthy (some d)) "engineer" &&
          !(matchesAny (lowerIfTruthy (some d)) ["master", "phd", "doctor"])) = false →
        map_degree_to_years (some ⟨true, some d, some st⟩) =
          some (if lowerIfTruthy (some st) = "pursuing" then 1/2 else 1))) ∧
    map_degree_to_years (some ⟨true, some "PhD in Physics", some "completed"⟩) = some 8 ∧
    map_degree_to_years (some ⟨true, some "PhD in Physics", some "pursuing"⟩) = some 7 ∧
    map_degree_to_years (some ⟨true, some "BSc Computer Science", some "completed"⟩) = some 4 ∧
    map_degree_to_years (some ⟨true, some "Master of Science", some "pursuing"⟩) = some 3 ∧
    map_degree_to_years (some ⟨true, some "Associate of Arts", some "completed"⟩) = some 2 ∧
    map_degree_to_years (some ⟨true, some "certificate in welding", some "completed"⟩) = some 1 ∧
    map_degree_to_years (some ⟨true, some "Software Engineer Degree", some "completed"⟩) = some 4 ∧
    map_degree_to_years (some ⟨true, some "Xyzzy Studies", some "completed"⟩) = some 1 ∧
    map_degree_to_years (some ⟨true, some "Xyzzy Studies", some "pursuing"⟩) = some (1/2) := by
  refine ⟨?_, by decide, by decide, by decide, by decide, by decide, by decide,
          by decide, by decide, rfl⟩
  intro d st
  refine ⟨?_, ?_, ?_, ?_, ?_, ?_, ?_⟩ <;> intro h1
  · simp [map_degree_to_years, h1]
  all_goals intro h2
  · simp [map_degree_to_years, h1, h2]
  all_goals intro h3
  · simp [map_degree_to_years, h1, h2, h3]
  all_goals intro h4
  · simp [map_degree_to_years, h1, h2, h3, h4]
  all_goals intro h5
  · simp [map_degree_to_years, h1, h2, h3, h4, h5]
  all_goals intro h6
  · simp [map_degree_to_years, h1, h2, h3, h4, h5, h6]
  · simp [map_degree_to_years, h1, h2, h3, h4, h5, h6]

/-- Witness for C6: the amended theorem applied at PhD in Physics,
completed, with every hypothesis discharged concretely. -/
theorem c6_witness :
    matchesAny (lowerIfTruthy (some "PhD in Physics")) phdTerms = true ∧
    map_degree_to_years (some ⟨true, some "PhD in Physics", some "completed"⟩) = some 8 := by
  refine ⟨by decide, ?_⟩
  have h := (c6_degree_mapping_amended.1 "PhD in Physics" "completed").1 (by decide)
  rw [h]
  decide

/-! Lemmas about the token-aggregation loop. -/

/-- Running totals of the aggregation loop: each counter ends at its
start value plus the sum over the processed usages. -/
theorem foldl_aggStep_totals (us : List ExtUsage) (t : TotalUsage) :
    (us.foldl aggStep t).total_tokens =
      t.total_tokens + (us.map (fun u => u.total_tokens)).sum ∧
    (us.foldl aggStep t).prompt_tokens =
      t.prompt_tokens + (us.map (fun u => u.prompt_tokens)).sum ∧
    (us.foldl aggStep t).completion_tokens =
      t.completion_tokens + (us.map (fun u => u.completion_tokens)).sum := by
  induction us generalizing t with
  | nil => simp
  | cons u rest ih =>
    obtain ⟨h1, h2, h3⟩ := ih (aggStep t u)
    refine ⟨?_, ?_, ?_⟩
    · rw [List.foldl_cons, h1]
      simp only [aggStep, List.map_cons, List.sum_cons]
      omega
    · rw [List.foldl_cons, h2]
      simp only [aggStep, List.map_cons, List.sum_cons]
      omega
    · rw [List.foldl_cons, h3]
      simp only [aggStep, List.map_cons, List.sum_cons]
      omega

/-- The loop body never touches the is_estimated flag. -/
theorem foldl_aggStep_is_estimated (us : List ExtUsage) (t : TotalUsage) :
    (us.foldl aggStep t).is_estimated = t.is_estimated := by
  induction us generalizing t with
  | nil => rfl
  | cons u rest ih => simpa [aggStep] using ih (aggStep t u)

/-- Dictionary assignment on the breakdown map, same key. -/
theorem lookup_bdSet_self (d : List (String × BreakdownEntry)) (k : String)
    (v : BreakdownEntry) : List.lookup k (bdSet d k v) = some v := by
  induction d with
  | nil => simp [bdSet, List.lookup]
  | cons a t ih =>
    rw [bdSet]
    by_cases hk : a.1 = k
    · simp [hk, List.lookup]
    · simp only [if_neg hk, List.lookup]
      rw [show ((k == a.1) : Bool) = false from beq_eq_false_iff_ne.mpr (fun he => hk he.symm)]
      exact ih

/-- Dictionary assignment on the breakdown map, other key. -/
theorem lookup_bdSet_ne (d : List (String × BreakdownEntry)) (k k0 : String)
    (v : BreakdownEntry) (h : k ≠ k0) :
    List.lookup k (bdSet d k0 v) = List.lookup k d := by
  induction d with
  | nil =>
    simp only [bdSet, List.lookup]
    rw [show ((k == k0) : Bool) = false from beq_eq_false_iff_ne.mpr h]
  | cons a t ih =>
    rw [bdSet]
    by_cases hk : a.1 = k0
    · simp only [if_pos hk, List.lookup]
      rw [show ((k == k0) : Bool) = false from beq_eq_false_iff_ne.mpr h,
        show ((k == a.1) : Bool) = false from beq_eq_false_iff_ne.mpr (by rw [hk]; exact h)]
    · rw [if_neg hk]
      simp only [List.lookup]
      cases hka : (k == a.1) with
      | false => exact ih
      | true => rfl

/-- Assigning a fresh key grows the breakdown map by one entry. -/
theorem bdSet_length_of_lookup_none (d : List (String × BreakdownEntry)) (k : String)
    (v : BreakdownEntry) (h : List.lookup k d = none) :
    (bdSet d k v).length = d.length + 1 := by
  induction d with
  | nil => rfl
  | cons a t ih =>
    simp only [List.lookup] at h
    rw [bdSet]
    by_cases hk : a.1 = k
    · rw [show ((k == a.1) : Bool) = true from beq_iff_eq.mpr hk.symm] at h
      exact Option.noConfusion h
    · rw [show ((k == a.1) : Bool) = false from
        beq_eq_false_iff_ne.mpr (fun he => hk he.symm)] at h
      simp [if_neg hk, ih h]

/-- A key present in the breakdown map stays present across an
assignment. -/
theorem lookup_bdSet_isSome (d : List (String × BreakdownEntry)) (k k0 : String)
    (v : BreakdownEntry) (h : (List.lookup k d).isSome = true) :
    (List.lookup k (bdSet d k0 v)).isSome = true := by
  by_cases hk : k = k0
  · subst hk
    rw [lookup_bdSet_self]
    rfl
  · rw [lookup_bdSet_ne d k k0 v hk]
    exact h

/-- A key present in the breakdown map stays present across the rest of
the loop. -/
theorem foldl_aggStep_lookup_isSome (us : List ExtUsage) (t : TotalUsage) (k : String)
    (h : (List.lookup k t.by_extractor).isSome = true) :
    (List.lookup k (us.foldl aggStep t).by_extractor).isSome = true := by
  induction us generalizing t with
  | nil => exact h
  | cons u rest ih =>
    rw [List.foldl_cons]
    exact ih (aggStep t u) (lookup_bdSet_isSome _ _ _ _ h)

/-- With pairwise distinct extractor names that are also fresh in the
accumulator, the loop adds exactly one breakdown entry per usage. -/
theorem foldl_aggStep_breakdown_length (us : List ExtUsage) (t : TotalUsage)
    (h : ∀ u ∈ us, List.lookup u.extractor t.by_extractor = none)
    (hnd : (us.map (fun u => u.extractor)).Nodup) :
    (us.foldl aggStep t).by_extractor.length = t.by_extractor.length + us.length := by
  induction us generalizing t with
  | nil => simp
  | cons u rest ih =>
    have hu : List.lookup u.extractor t.by_extractor = none :=
      h u (List.mem_cons_self u rest)
    have hnd' : (u.extractor :: rest.map (fun u => u.extractor)).Nodup := by
      simpa using hnd
    have hndt : (rest.map (fun u => u.extractor)).Nodup := (List.nodup_cons.mp hnd').2
    have hne : ∀ v ∈ rest, v.extractor ≠ u.extractor := by
      intro v hv he
      apply (List.nodup_cons.mp hnd').1
      rw [← he]
      exact List.mem_map_of_mem (fun u => u.extractor) hv
    have hrest : ∀ v ∈ rest, List.lookup v.extractor (aggStep t u).by_extractor = none := by
      intro v hv
      rw [show (aggStep t u).by_extractor = bdSet t.by_extractor u.extractor _ from rfl]
      rw [lookup_bdSet_ne _ _ _ _ (hne v hv)]
      exact h v (List.mem_cons_of_mem u hv)
    rw [List.foldl_cons, ih (aggStep t u) hrest hndt,
      show (aggStep t u).by_extractor = bdSet t.by_extractor u.extractor _ from rfl,
      bdSet_length_of_lookup_none _ _ _ hu]
    simp only [List.length_cons]
    omega

/-- Every processed usage ends with its entry present in the breakdown
map. -/
theorem foldl_aggStep_mem_lookup (us : List ExtUsage) (t : TotalUsage) :
    ∀ u ∈ us, (List.lookup u.extractor (us.foldl aggStep t).by_extractor).isSome = true := by
  induction us generalizing t with
  | nil => intro u hu; cases hu
  | cons v rest ih =>
    intro u hu
    rw [List.foldl_cons]
    rcases List.mem_cons.mp hu with h | h
    · subst h
      apply foldl_aggStep_lookup_isSome
      rw [show (aggStep t u).by_extractor = bdSet t.by_extractor u.extractor _ from rfl,
        lookup_bdSet_self]
      rfl
    · exact ih (aggStep t v) u h

/-- The consolidated estimation mark equals the any-estimated test
over the contributing usages. -/
theorem aggregate_is_estimated (us : List ExtUsage) :
    (aggregateTokenUsage us).is_estimated = us.any (fun u => u.is_estimated) := by
  unfold aggregateTokenUsage
  cases hany : us.any (fun u => u.is_estimated) with
  | true => simp [hany]
  | false => simp [hany, foldl_aggStep_is_estimated, initTotalUsage]

/-- Claim C5: across every extractor invoked for a document (the five
usages process_resume aggregates, including zero-usage failed calls),
the consolidated token usage is the component-wise sum; one breakdown
entry is retained per invoked extractor (breakdown size equals the
number of usages when extractor names are pairwise distinct, as the
five extractor class names are, and every invoked extractor has an
entry); and the consolidated usage is marked estimated exactly when at
least one contributing usage was estimated.  The final conjunct pins
the aggregation to its call site in process_resume. -/
theorem c5_token_usage_aggregation (usages : List ExtUsage)
    (hnd : (usages.map (fun u => u.extractor)).Nodup) :
    (aggregateTokenUsage usages).total_tokens =
      (usages.map (fun u => u.total_tokens)).sum ∧
    (aggregateTokenUsage usages).prompt_tokens =
      (usages.map (fun u => u.prompt_tokens)).sum ∧
    (aggregateTokenUsage usages).completion_tokens =
      (usages.map (fun u => u.completion_tokens)).sum ∧
    (aggregateTokenUsage usages).by_extractor.length = usages.length ∧
    (∀ u ∈ usages,
       (List.lookup u.extractor (aggregateTokenUsage usages).by_extractor).isSome = true) ∧
    ((aggregateTokenUsage usages).is_estimated = true ↔
       ∃ u ∈ usages, u.is_estimated = true) ∧
    (∀ (pd sd ed xd yd : PyDict) (pu su eu xu yu : ExtUsage) (fn : String),
       process_resume true true (.ok (pd, pu)) (.ok (sd, su)) (.ok (ed, eu))
           (.ok (xd, xu)) (.ok (yd, yu)) fn =
         some (fromExtractorsOutput pd sd ed xd yd fn,
               aggregateTokenUsage [pu, su, eu, xu, yu])) := by
  have hfields :
      (aggregateTokenUsage usages).total_tokens =
        (usages.foldl aggStep initTotalUsage).total_tokens ∧
      (aggregateTokenUsage usages).prompt_tokens =
        (usages.foldl aggStep initTotalUsage).prompt_tokens ∧
      (aggregateTokenUsage usages).completion_tokens =
        (usages.foldl aggStep initTotalUsage).completion_tokens ∧
      (aggregateTokenUsage usages).by_extractor =
        (usages.foldl aggStep initTotalUsage).by_extractor := by
    unfold aggregateTokenUsage
    split <;> exact ⟨rfl, rfl, rfl, rfl⟩
  obtain ⟨hf1, hf2, hf3, hf4⟩ := hfields
  obtain ⟨ht1, ht2, ht3⟩ := foldl_aggStep_totals usages initTotalUsage
  refine ⟨?_, ?_, ?_, ?_, ?_, ?_, ?_⟩
  · rw [hf1, ht1]
    simp [initTotalUsage]
  · rw [hf2, ht2]
    simp [initTotalUsage]
  · rw [hf3, ht3]
    simp [initTotalUsage]
  · rw [hf4, foldl_aggStep_breakdown_length usages initTotalUsage (fun u _ => rfl) hnd]
    simp [initTotalUsage]
  · intro u hu
    rw [hf4]
    exact foldl_aggStep_mem_lookup usages initTotalUsage u hu
  · rw [aggregate_is_estimated]
    simp [List.any_eq_true]
  · intro pd sd ed xd yd pu su eu xu yu fn
    rfl

/-- Witness for C5: three extractors reporting totals 10, 20 and 0
(the last a failed call tagged error) give a consolidated total of 30
with exactly 3 breakdown entries and no estimation mark. -/
theorem c5_witness :
    (List.map (fun u => u.extractor)
      ([⟨"ProfileExtractor", 10, 6, 4, "usage_metadata", false⟩,
        ⟨"SkillsExtractor", 20, 12, 8, "usage_metadata", false⟩,
        ⟨"EducationExtractor", 0, 0, 0, "error", false⟩] : List ExtUsage)).Nodup ∧
    (aggregateTokenUsage
      [⟨"ProfileExtractor", 10, 6, 4, "usage_metadata", false⟩,
       ⟨"SkillsExtractor", 20, 12, 8, "usage_metadata", false⟩,
       ⟨"EducationExtractor", 0, 0, 0, "error", false⟩]).total_tokens = 30 ∧
    (aggregateTokenUsage
      [⟨"ProfileExtractor", 10, 6, 4, "usage_metadata", false⟩,
       ⟨"SkillsExtractor", 20, 12, 8, "usage_metadata", false⟩,
       ⟨"EducationExtractor", 0, 0, 0, "error", false⟩]).by_extractor.length = 3 := by
  have h := c5_token_usage_aggregation
    [⟨"ProfileExtractor", 10, 6, 4, "usage_metadata", false⟩,
     ⟨"SkillsExtractor", 20, 12, 8, "usage_metadata", false⟩,
     ⟨"EducationExtractor", 0, 0, 0, "error", false⟩] (by decide)
  refine ⟨by decide, ?_, ?_⟩
  · rw [h.1]
    decide
  · rw [h.2.2.2.1]
    decide

/-! Lemmas about the output-normalisation paths. -/

/-- process_simple_output binds every requested field to exactly the
value the raw output carried for it (null when missing). -/
theorem lookup_process_simple_output (out : PyDict) (fields : List String) (f : String)
    (hf : f ∈ fields) :
    List.lookup f (process_simple_output out fields) = some (pyGet out f) := by
  induction fields with
  | nil => cases hf
  | cons a t ih =>
    simp only [process_simple_output, List.map_cons, List.lookup]
    by_cases hfa : f = a
    · subst hfa
      rw [show ((f == f) : Bool) = true from beq_self_eq_true f]
    · rw [show ((f == a) : Bool) = false from beq_eq_false_iff_ne.mpr hfa]
      have hft : f ∈ t := by
        rcases List.mem_cons.mp hf with h | h
        · exact absurd h hfa
        · exact h
      exact ih hft

/-- The normalised experience entry binds company to the raw value or
its documented default. -/
theorem normEntry_company (e : PyDict) :
    List.lookup "company" (normExperienceEntry e) =
      some (pyOrJ (pyGet e "company") (.s "Unknown Company")) := by
  unfold normExperienceEntry
  rw [lookup_pySet_ne _ _ _ _ (by decide), lookup_pySet_ne _ _ _ _ (by decide),
    lookup_pySet_ne _ _ _ _ (by decide), lookup_pySet_ne _ _ _ _ (by decide),
    lookup_pySet_self]

/-- The normalised experience entry binds start_date to the raw value
or the empty-string default. -/
theorem normEntry_start_date (e : PyDict) :
    List.lookup "start_date" (normExperienceEntry e) =
      some (pyOrJ (pyGet e "start_date") (.s "")) := by
  unfold normExperienceEntry
  rw [lookup_pySet_ne _ _ _ _ (by decide), lookup_pySet_ne _ _ _ _ (by decide),
    lookup_pySet_ne _ _ _ _ (by decide), lookup_pySet_self]
  simp only [pyGet]
  rw [lookup_pySet_ne e "start_date" "company" _ (by decide)]

/-- The normalised experience entry binds end_date to the raw value or
the empty-string default. -/
theorem normEntry_end_date (e : PyDict) :
    List.lookup "end_date" (normExperienceEntry e) =
      some (pyOrJ (pyGet e "end_date") (.s "")) := by
  unfold normExperienceEntry
  rw [lookup_pySet_ne _ _ _ _ (by decide), lookup_pySet_ne _ _ _ _ (by decide),
    lookup_pySet_self]
  simp only [pyGet]
  rw [lookup_pySet_ne _ "end_date" "start_date" _ (by decide),
    lookup_pySet_ne e "end_date" "company" _ (by decide)]

/-- The normalised experience entry binds location to the raw value or
its documented default. -/
theorem normEntry_location (e : PyDict) :
    List.lookup "location" (normExperienceEntry e) =
      some (pyOrJ (pyGet e "location") (.s "Not specified")) := by
  unfold normExperienceEntry
  rw [lookup_pySet_ne _ _ _ _ (by decide), lookup_pySet_self]
  simp only [pyGet]
  rw [lookup_pySet_ne _ "location" "end_date" _ (by decide),
    lookup_pySet_ne _ "location" "start_date" _ (by decide),
    lookup_pySet_ne e "location" "company" _ (by decide)]

/-- The normalised experience entry binds role to the raw value or its
documented default. -/
theorem normEntry_role (e : PyDict) :
    List.lookup "role" (normExperienceEntry e) =
      some (pyOrJ (pyGet e "role") (.s "Unknown Role")) := by
  unfold normExperienceEntry
  rw [lookup_pySet_self]
  simp only [pyGet]
  rw [lookup_pySet_ne _ "role" "location" _ (by decide),
    lookup_pySet_ne _ "role" "end_date" _ (by decide),
    lookup_pySet_ne _ "role" "start_date" _ (by decide),
    lookup_pySet_ne e "role" "company" _ (by decide)]

/-- Counterexample to claim C8 as stated: the claim quantifies over
every raw LLM output, but the raw output binding work_experiences to
null makes ExperienceExtractorPlugin.extract raise (len(None) is a
TypeError) instead of producing a normalised record with the field
defaulted to the empty list; there is no normalised output at all for
that input. -/
theorem c8_counterexample :
    experiencePluginNormalize (.obj [("work_experiences", JVal.null)]) = .error () ∧
    ∀ out : PyDict,
      experiencePluginNormalize (.obj [("work_experiences", JVal.null)]) ≠ .ok out :=
  ⟨rfl, fun _ h => Except.noConfusion h⟩

/-- Claim C8 as amended: for every raw LLM output whose
work_experiences value, when present, is an actual list (a null or
other unsized value instead makes the extract call raise, which the
orchestrator catches), the normalised extractor output defines every
declared field — the missing list field becomes the empty list, every
dictionary entry of the list has all five declared sub-fields bound,
and missing or falsy scalar sub-fields receive their documented
placeholder defaults (Unknown Company, Not specified, Unknown Role,
empty dates); and process_simple_output always binds every declared
field, to the raw value or to null, the documented null default of the
simple extractors. -/
theorem c8_default_filling_amended :
    (∀ (out : PyDict) (fields : List String), ∀ f ∈ fields,
       List.lookup f (process_simple_output out fields) = some (pyGet out f)) ∧
    (∀ kvs : PyDict, List.lookup "work_experiences" kvs = none →
       experiencePluginNormalize (.obj kvs) = .ok [("work_experiences", .arr [])]) ∧
    (∀ (kvs : PyDict) (xs : List JVal),
       List.lookup "work_experiences" kvs = some (.arr xs) →
       experiencePluginNormalize (.obj kvs) =
         .ok [("work_experiences", .arr (xs.map (fun x => match x with
           | .obj e => .obj (normExperienceEntry e)
           | other => other)))]) ∧
    (∀ v : JVal, (∀ kvs : PyDict, v ≠ .obj kvs) →
       experiencePluginNormalize v = .ok [("work_experiences", .arr [])]) ∧
    (∀ e : PyDict, ∀ f ∈ ["company", "start_date", "end_date", "location", "role"],
       (List.lookup f (normExperienceEntry e)).isSome = true) ∧
    (∀ e : PyDict, truthy (pyGet e "company") = false →
       List.lookup "company" (normExperienceEntry e) = some (.s "Unknown Company")) ∧
    (∀ e : PyDict, truthy (pyGet e "location") = false →
       List.lookup "location" (normExperienceEntry e) = some (.s "Not specified")) ∧
    (∀ e : PyDict, truthy (pyGet e "role") = false →
       List.lookup "role" (normExperienceEntry e) = some (.s "Unknown Role")) := by
  refine ⟨?_, ?_, ?_, ?_, ?_, ?_, ?_, ?_⟩
  · intro out fields f hf
    exact lookup_process_simple_output out fields f hf
  · intro kvs h
    simp [experiencePluginNormalize, h, pyLen]
  · intro kvs xs h
    simp [experiencePluginNormalize, h, pyLen]
  · intro v hv
    cases v with
    | obj kvs => exact absurd rfl (hv kvs)
    | null => rfl
    | s a => rfl
    | q a => rfl
    | b a => rfl
    | arr a => rfl
  · intro e f hf
    simp only [List.mem_cons, List.not_mem_nil, or_false] at hf
    rcases hf with h | h | h | h | h <;> subst h
    · rw [normEntry_company]; rfl
    · rw [normEntry_start_date]; rfl
    · rw [normEntry_end_date]; rfl
    · rw [normEntry_location]; rfl
    · rw [normEntry_role]; rfl
  · intro e h
    rw [normEntry_company]
    simp [pyOrJ, h]
  · intro e h
    rw [normEntry_location]
    simp [pyOrJ, h]
  · intro e h
    rw [normEntry_role]
    simp [pyOrJ, h]

/-- Witness for C8 as amended: a concrete raw output with one partial
entry normalises to a record whose missing fields carry the documented
defaults. -/
theorem c8_witness :
    List.lookup "work_experiences"
        ([("work_experiences", JVal.null)] : PyDict) = some JVal.null ∧
    experiencePluginNormalize
        (.obj [("work_experiences", .arr [.obj [("company", .s "Acme")]])]) =
      .ok [("work_experiences",
            .arr [.obj (normExperienceEntry [("company", .s "Acme")])])] ∧
    truthy (pyGet ([("company", .s "Acme")] : PyDict) "location") = false ∧
    List.lookup "location" (normExperienceEntry [("company", .s "Acme")]) =
      some (.s "Not specified") := by
  refine ⟨rfl, ?_, by decide, ?_⟩
  · exact (c8_default_filling_amended.2.2.1
      [("work_experiences", .arr [.obj [("company", .s "Acme")]])]
      [.obj [("company", .s "Acme")]] rfl)
  · exact (c8_default_filling_amended.2.2.2.2.2.2.1 [("company", .s "Acme")] (by decide))

/-! Lemmas about the stages of process_output. -/

/-- The education alias sync touches no field outside its pair. -/
theorem syncEdu_frame (r : RelevantYearsOfExperience) :
    (syncEdu r).relevant_job_experience_years = r.relevant_job_experience_years ∧
    (syncEdu r).total_relevant_experience_years = r.total_relevant_experience_years ∧
    (syncEdu r).all_edu_yoe = r.all_edu_yoe ∧
    (syncEdu r).relevant_work_yoe = r.relevant_work_yoe ∧
    (syncEdu r).all_work_yoe = r.all_work_yoe ∧
    (syncEdu r).relevant_total_yoe = r.relevant_total_yoe ∧
    (syncEdu r).all_total_yoe = r.all_total_yoe := by
  unfold syncEdu
  split
  · exact ⟨rfl, rfl, rfl, rfl, rfl, rfl, rfl⟩
  · split
    · exact ⟨rfl, rfl, rfl, rfl, rfl, rfl, rfl⟩
    · exact ⟨rfl, rfl, rfl, rfl, rfl, rfl, rfl⟩

/-- The work alias sync touches no field outside its pair. -/
theorem syncWork_frame (r : RelevantYearsOfExperience) :
    (syncWork r).relevant_education_years = r.relevant_education_years ∧
    (syncWork r).total_relevant_experience_years = r.total_relevant_experience_years ∧
    (syncWork r).relevant_edu_yoe = r.relevant_edu_yoe ∧
    (syncWork r).all_edu_yoe = r.all_edu_yoe ∧
    (syncWork r).all_work_yoe = r.all_work_yoe ∧
    (syncWork r).relevant_total_yoe = r.relevant_total_yoe ∧
    (syncWork r).all_total_yoe = r.all_total_yoe := by
  unfold syncWork
  split
  · exact ⟨rfl, rfl, rfl, rfl, rfl, rfl, rfl⟩
  · split
    · exact ⟨rfl, rfl, rfl, rfl, rfl, rfl, rfl⟩
    · exact ⟨rfl, rfl, rfl, rfl, rfl, rfl, rfl⟩

/-- The total alias sync touches no field outside its pair. -/
theorem syncTotal_frame (r : RelevantYearsOfExperience) :
    (syncTotal r).relevant_education_years = r.relevant_education_years ∧
    (syncTotal r).relevant_job_experience_years = r.relevant_job_experience_years ∧
    (syncTotal r).relevant_edu_yoe = r.relevant_edu_yoe ∧
    (syncTotal r).all_edu_yoe = r.all_edu_yoe ∧
    (syncTotal r).relevant_work_yoe = r.relevant_work_yoe ∧
    (syncTotal r).all_work_yoe = r.all_work_yoe ∧
    (syncTotal r).all_total_yoe = r.all_total_yoe := by
  unfold syncTotal
  split
  · exact ⟨rfl, rfl, rfl, rfl, rfl, rfl, rfl⟩
  · split
    · exact ⟨rfl, rfl, rfl, rfl, rfl, rfl, rfl⟩
    · exact ⟨rfl, rfl, rfl, rfl, rfl, rfl, rfl⟩

/-- After the education sync, the two members of the pair are defined
together: each is defined exactly when at least one was. -/
theorem syncEdu_pair_isSome (r : RelevantYearsOfExperience) :
    (syncEdu r).relevant_education_years.isSome =
      (r.relevant_education_years.isSome || r.relevant_edu_yoe.isSome) ∧
    (syncEdu r).relevant_edu_yoe.isSome =
      (r.relevant_education_years.isSome || r.relevant_edu_yoe.isSome) := by
  unfold syncEdu
  rcases hO : r.relevant_education_years with _ | x <;>
    rcases hN : r.relevant_edu_yoe with _ | y <;>
    simp [hO, hN]

/-- After the work sync, the two members of the pair are defined
together. -/
theorem syncWork_pair_isSome (r : RelevantYearsOfExperience) :
    (syncWork r).relevant_job_experience_years.isSome =
      (r.relevant_job_experience_years.isSome || r.relevant_work_yoe.isSome) ∧
    (syncWork r).relevant_work_yoe.isSome =
      (r.relevant_job_experience_years.isSome || r.relevant_work_yoe.isSome) := by
  unfold syncWork
  rcases hO : r.relevant_job_experience_years with _ | x <;>
    rcases hN : r.relevant_work_yoe with _ | y <;>
    simp [hO, hN]

/-- When at most one member of the education pair held a value (or
both held the same), the sync leaves the pair equal. -/
theorem syncEdu_pair_eq (r : RelevantYearsOfExperience)
    (h : r.relevant_education_years = none ∨ r.relevant_edu_yoe = none ∨
         r.relevant_education_years = r.relevant_edu_yoe) :
    (syncEdu r).relevant_education_years = (syncEdu r).relevant_edu_yoe := by
  unfold syncEdu
  rcases hO : r.relevant_education_years with _ | x <;>
    rcases hN : r.relevant_edu_yoe with _ | y <;>
    simp_all

/-- When at most one member of the work pair held a value (or both
held the same), the sync leaves the pair equal. -/
theorem syncWork_pair_eq (r : RelevantYearsOfExperience)
    (h : r.relevant_job_experience_years = none ∨ r.relevant_work_yoe = none ∨
         r.relevant_job_experience_years = r.relevant_work_yoe) :
    (syncWork r).relevant_job_experience_years = (syncWork r).relevant_work_yoe := by
  unfold syncWork
  rcases hO : r.relevant_job_experience_years with _ | x <;>
    rcases hN : r.relevant_work_yoe with _ | y <;>
    simp_all

/-- When at most one member of the total pair held a value (or both
held the same), the sync leaves the pair equal. -/
theorem syncTotal_pair_eq (r : RelevantYearsOfExperience)
    (h : r.total_relevant_experience_years = none ∨ r.relevant_total_yoe = none ∨
         r.total_relevant_experience_years = r.relevant_total_yoe) :
    (syncTotal r).total_relevant_experience_years = (syncTotal r).relevant_total_yoe := by
  unfold syncTotal
  rcases hO : r.total_relevant_experience_years with _ | x <;>
    rcases hN : r.relevant_total_yoe with _ | y <;>
    simp_all

/-- The education correction touches no work, total or all-experience
field other than all_edu_yoe. -/
theorem eduCorrection_frame (r : RelevantYearsOfExperience) (oinfo : Option DegreeInfo) :
    (eduCorrection r oinfo).relevant_job_experience_years = r.relevant_job_experience_years ∧
    (eduCorrection r oinfo).relevant_work_yoe = r.relevant_work_yoe ∧
    (eduCorrection r oinfo).total_relevant_experience_years = r.total_relevant_experience_years ∧
    (eduCorrection r oinfo).relevant_total_yoe = r.relevant_total_yoe ∧
    (eduCorrection r oinfo).all_work_yoe = r.all_work_yoe ∧
    (eduCorrection r oinfo).all_total_yoe = r.all_total_yoe := by
  rcases oinfo with _ | info
  · exact ⟨rfl, rfl, rfl, rfl, rfl, rfl⟩
  · simp only [eduCorrection]
    rcases hm : map_degree_to_years (some info) with _ | m
    · exact ⟨rfl, rfl, rfl, rfl, rfl, rfl⟩
    · simp only [hm]
      rcases hc : pyOrQ r.relevant_edu_yoe r.relevant_education_years with _ | c <;>
        simp only [hc] <;> split_ifs <;> exact ⟨rfl, rfl, rfl, rfl, rfl, rfl⟩

/-- Behaviour of the education correction when the degree maps to a
number: all_edu_yoe is filled exactly when it was missing, a missing
current value fills both members of the education pair with the
mapping, and a present current value is replaced in both members
exactly when it diverges from the mapping by more than 20 percent of
the mapping. -/
theorem eduCorrection_edu (r : RelevantYearsOfExperience) (info : DegreeInfo) (m : ℚ)
    (hm : map_degree_to_years (some info) = some m) :
    (r.all_edu_yoe = none → (eduCorrection r (some info)).all_edu_yoe = some m) ∧
    (∀ q, r.all_edu_yoe = some q → (eduCorrection r (some info)).all_edu_yoe = some q) ∧
    (pyOrQ r.relevant_edu_yoe r.relevant_education_years = none →
       (eduCorrection r (some info)).relevant_edu_yoe = some m ∧
       (eduCorrection r (some info)).relevant_education_years = some m) ∧
    (∀ c, pyOrQ r.relevant_edu_yoe r.relevant_education_years = some c →
       (|c - m| > m * (1/5) →
          (eduCorrection r (some info)).relevant_edu_yoe = some m ∧
          (eduCorrection r (some info)).relevant_education_years = some m) ∧
       (¬(|c - m| > m * (1/5)) →
          (eduCorrection r (some info)).relevant_edu_yoe = r.relevant_edu_yoe ∧
          (eduCorrection r (some info)).relevant_education_years =
            r.relevant_education_years)) := by
  simp only [eduCorrection, hm]
  rcases hc : pyOrQ r.relevant_edu_yoe r.relevant_education_years with _ | c <;>
    simp only [hc]
  · refine ⟨?_, ?_, ?_, ?_⟩
    · intro ha
      simp [ha]
    · intro q hq
      simp [hq]
    · intro _
      exact ⟨trivial, trivial⟩
    · intro c2 hc2
      exact Option.noConfusion hc2
  · refine ⟨?_, ?_, ?_, ?_⟩
    · intro ha
      by_cases ht : |c - m| > m * (1/5)
      · rw [if_pos ht]
        simp [ha]
      · rw [if_neg ht]
        simp [ha]
    · intro q hq
      by_cases ht : |c - m| > m * (1/5)
      · rw [if_pos ht]
        simp [hq]
      · rw [if_neg ht]
        simp [hq]
    · intro h
      exact Option.noConfusion h
    · intro c2 hc2
      injection hc2 with hcc
      subst hcc
      constructor
      · intro ht
        rw [if_pos ht]
        exact ⟨rfl, rfl⟩
      · intro ht
        rw [if_neg ht]
        constructor
        · by_cases ha : r.all_edu_yoe.isNone
          · rw [if_pos ha]
          · rw [if_neg ha]
        · by_cases ha : r.all_edu_yoe.isNone
          · rw [if_pos ha]
          · rw [if_neg ha]

/-- The education pair stays defined across the correction. -/
theorem eduCorrection_pair_isSome (r : RelevantYearsOfExperience)
    (oinfo : Option DegreeInfo)
    (h1 : r.relevant_edu_yoe.isSome = true)
    (h2 : r.relevant_education_years.isSome = true) :
    (eduCorrection r oinfo).relevant_edu_yoe.isSome = true ∧
    (eduCorrection r oinfo).relevant_education_years.isSome = true := by
  rcases oinfo with _ | info
  · exact ⟨h1, h2⟩
  · simp only [eduCorrection]
    rcases hm : map_degree_to_years (some info) with _ | m
    · exact ⟨h1, h2⟩
    · simp only [hm]
      rcases hc : pyOrQ r.relevant_edu_yoe r.relevant_education_years with _ | c
      · simp only [hc]
        exact ⟨rfl, rfl⟩
      · simp only [hc]
        by_cases ht : |c - m| > m * (1/5)
        · rw [if_pos ht]
          exact ⟨rfl, rfl⟩
        · rw [if_neg ht]
          split_ifs <;> exact ⟨h1, h2⟩

/-- An equal education pair stays equal across the correction. -/
theorem eduCorrection_pair_eq (r : RelevantYearsOfExperience) (oinfo : Option DegreeInfo)
    (h : r.relevant_education_years = r.relevant_edu_yoe) :
    (eduCorrection r oinfo).relevant_education_years =
      (eduCorrection r oinfo).relevant_edu_yoe := by
  rcases oinfo with _ | info
  · exact h
  · simp only [eduCorrection]
    rcases hm : map_degree_to_years (some info) with _ | m
    · exact h
    · simp only [hm]
      rcases hc : pyOrQ r.relevant_edu_yoe r.relevant_education_years with _ | c
      · simp only [hc]
      · simp only [hc]
        by_cases ht : |c - m| > m * (1/5)
        · rw [if_pos ht]
        · rw [if_neg ht]
          split_ifs <;> exact h

/-- An education pair whose members are defined together stays defined
together across the correction. -/
theorem eduCorrection_pair_isSome_eq (r : RelevantYearsOfExperience)
    (oinfo : Option DegreeInfo)
    (h : r.relevant_edu_yoe.isSome = r.relevant_education_years.isSome) :
    (eduCorrection r oinfo).relevant_edu_yoe.isSome =
      (eduCorrection r oinfo).relevant_education_years.isSome := by
  rcases oinfo with _ | info
  · exact h
  · simp only [eduCorrection]
    rcases hm : map_degree_to_years (some info) with _ | m
    · exact h
    · simp only [hm]
      rcases hc : pyOrQ r.relevant_edu_yoe r.relevant_education_years with _ | c
      · simp only [hc]
      · simp only [hc]
        by_cases ht : |c - m| > m * (1/5)
        · rw [if_pos ht]
        · rw [if_neg ht]
          split_ifs <;> exact h

/-- The relevant-total computation touches only the total pair. -/
theorem relevantTotals_frame (r : RelevantYearsOfExperience) :
    (relevantTotals r).relevant_education_years = r.relevant_education_years ∧
    (relevantTotals r).relevant_job_experience_years = r.relevant_job_experience_years ∧
    (relevantTotals r).relevant_edu_yoe = r.relevant_edu_yoe ∧
    (relevantTotals r).all_edu_yoe = r.all_edu_yoe ∧
    (relevantTotals r).relevant_work_yoe = r.relevant_work_yoe ∧
    (relevantTotals r).all_work_yoe = r.all_work_yoe ∧
    (relevantTotals r).all_total_yoe = r.all_total_yoe := by
  unfold relevantTotals
  split
  · split <;> exact ⟨rfl, rfl, rfl, rfl, rfl, rfl, rfl⟩
  · exact ⟨rfl, rfl, rfl, rfl, rfl, rfl, rfl⟩

/-- A Python or over two defined optional numbers is defined. -/
theorem pyOrQ_isSome (a b : Option ℚ) (ha : a.isSome = true) (hb : b.isSome = true) :
    (pyOrQ a b).isSome = true := by
  rcases a with _ | x
  · exact absurd ha (by simp)
  · simp only [pyOrQ]
    split_ifs <;> simp_all

/-- When both guarded pairs are fully populated, the relevant-total
computation writes the computed sum into both total fields. -/
theorem relevantTotals_set (r : RelevantYearsOfExperience)
    (hEn : r.relevant_edu_yoe.isSome = true)
    (hEo : r.relevant_education_years.isSome = true)
    (hWn : r.relevant_work_yoe.isSome = true)
    (hWo : r.relevant_job_experience_years.isSome = true) :
    (relevantTotals r).relevant_total_yoe =
      some ((pyOrQ r.relevant_edu_yoe r.relevant_education_years).getD 0 +
            (pyOrQ r.relevant_work_yoe r.relevant_job_experience_years).getD 0) ∧
    (relevantTotals r).total_relevant_experience_years =
      (relevantTotals r).relevant_total_yoe := by
  have hE := pyOrQ_isSome _ _ hEn hEo
  have hW := pyOrQ_isSome _ _ hWn hWo
  rcases he : pyOrQ r.relevant_edu_yoe r.relevant_education_years with _ | e
  · rw [he] at hE
    exact absurd hE (by simp)
  · rcases hw : pyOrQ r.relevant_work_yoe r.relevant_job_experience_years with _ | w
    · rw [hw] at hW
      exact absurd hW (by simp)
    · unfold relevantTotals
      rw [if_pos ⟨Or.inl hEn, Or.inl hWn⟩]
      simp only [he, hw, Option.getD_some]
      constructor <;> trivial

/-- When a guard side is fully missing, the relevant-total computation
leaves the record unchanged. -/
theorem relevantTotals_skip (r : RelevantYearsOfExperience)
    (h : ¬((r.relevant_edu_yoe.isSome = true ∨ r.relevant_education_years.isSome = true) ∧
           (r.relevant_work_yoe.isSome = true ∨
            r.relevant_job_experience_years.isSome = true))) :
    relevantTotals r = r := by
  unfold relevantTotals
  rw [if_neg]
  intro hcon
  exact h ⟨hcon.1.imp id id, hcon.2.imp id id⟩

/-- The all-experience total computation touches only all_total_yoe. -/
theorem allTotals_frame (r : RelevantYearsOfExperience) :
    (allTotals r).relevant_education_years = r.relevant_education_years ∧
    (allTotals r).relevant_job_experience_years = r.relevant_job_experience_years ∧
    (allTotals r).total_relevant_experience_years = r.total_relevant_experience_years ∧
    (allTotals r).relevant_edu_yoe = r.relevant_edu_yoe ∧
    (allTotals r).all_edu_yoe = r.all_edu_yoe ∧
    (allTotals r).relevant_work_yoe = r.relevant_work_yoe ∧
    (allTotals r).all_work_yoe = r.all_work_yoe ∧
    (allTotals r).relevant_total_yoe = r.relevant_total_yoe := by
  unfold allTotals
  split <;> exact ⟨rfl, rfl, rfl, rfl, rfl, rfl, rfl, rfl⟩

/-- Claim C7: in RelevantYoEExtractorPlugin.process_output, whenever
the education info yields a deterministic degree-to-years mapping m,
the education-years fields the LLM left null are filled with m (the
relevant-education pair when it holds no current value after the
backward-compatibility alias sync, and all_edu_yoe when null), and an
LLM-provided relevant-education value c (the synced pair's current
value read by the code) is replaced in both members by m exactly when
it diverges from m by more than 20 percent of m; within tolerance both
members are kept unchanged. -/
theorem c7_degree_mapping_override (r0 : RelevantYearsOfExperience)
    (info : DegreeInfo) (m : ℚ)
    (hm : map_degree_to_years (some info) = some m) :
    (pyOrQ (syncFields r0).relevant_edu_yoe (syncFields r0).relevant_education_years = none →
       (process_output r0 (some info)).relevant_edu_yoe = some m ∧
       (process_output r0 (some info)).relevant_education_years = some m) ∧
    (∀ c, pyOrQ (syncFields r0).relevant_edu_yoe
            (syncFields r0).relevant_education_years = some c →
       (|c - m| > m * (1/5) →
          (process_output r0 (some info)).relevant_edu_yoe = some m ∧
          (process_output r0 (some info)).relevant_education_years = some m) ∧
       (¬(|c - m| > m * (1/5)) →
          (process_output r0 (some info)).relevant_edu_yoe =
            (syncFields r0).relevant_edu_yoe ∧
          (process_output r0 (some info)).relevant_education_years =
            (syncFields r0).relevant_education_years)) ∧
    (r0.all_edu_yoe = none →
       (process_output r0 (some info)).all_edu_yoe = some m) := by
  have hfe : (process_output r0 (some info)).relevant_edu_yoe =
      (eduCorrection (syncFields r0) (some info)).relevant_edu_yoe := by
    simp only [process_output]
    rw [(allTotals_frame _).2.2.2.1, (relevantTotals_frame _).2.2.1]
  have hfo : (process_output r0 (some info)).relevant_education_years =
      (eduCorrection (syncFields r0) (some info)).relevant_education_years := by
    simp only [process_output]
    rw [(allTotals_frame _).1, (relevantTotals_frame _).1]
  have hfa : (process_output r0 (some info)).all_edu_yoe =
      (eduCorrection (syncFields r0) (some info)).all_edu_yoe := by
    simp only [process_output]
    rw [(allTotals_frame _).2.2.2.2.1, (relevantTotals_frame _).2.2.2.1]
  have hsae : (syncFields r0).all_edu_yoe = r0.all_edu_yoe := by
    simp only [syncFields]
    rw [(syncTotal_frame _).2.2.2.1, (syncWork_frame _).2.2.2.1, (syncEdu_frame _).2.2.1]
  have he := eduCorrection_edu (syncFields r0) info m hm
  refine ⟨?_, ?_, ?_⟩
  · intro h
    obtain ⟨hA, hB⟩ := he.2.2.1 h
    exact ⟨hfe.trans hA, hfo.trans hB⟩
  · intro c hcc
    obtain ⟨hrep, hkeep⟩ := he.2.2.2 c hcc
    constructor
    · intro ht
      obtain ⟨hA, hB⟩ := hrep ht
      exact ⟨hfe.trans hA, hfo.trans hB⟩
    · intro ht
      obtain ⟨hA, hB⟩ := hkeep ht
      exact ⟨hfe.trans hA, hfo.trans hB⟩
  · intro h0
    exact hfa.trans (he.1 (hsae.trans h0))

/-- Witness for C7: with the LLM reporting 4 relevant education
years, a completed PhD mapping to 8, and 4 diverging from 8 by more
than 20 percent, process_output overrides both members of the pair
with 8 and fills the null all_edu_yoe with 8. -/
theorem c7_witness :
    map_degree_to_years (some ⟨true, some "PhD in Physics", some "completed"⟩) = some 8 ∧
    pyOrQ (syncFields ⟨some 4, none, none, none, none, none, none, none, none⟩).relevant_edu_yoe
      (syncFields ⟨some 4, none, none, none, none, none, none, none, none⟩).relevant_education_years =
      some 4 ∧
    |(4 : ℚ) - 8| > 8 * (1/5) ∧
    (process_output ⟨some 4, none, none, none, none, none, none, none, none⟩
        (some ⟨true, some "PhD in Physics", some "completed"⟩)).relevant_edu_yoe = some 8 ∧
    (process_output ⟨some 4, none, none, none, none, none, none, none, none⟩
        (some ⟨true, some "PhD in Physics", some "completed"⟩)).relevant_education_years =
      some 8 ∧
    (process_output ⟨some 4, none, none, none, none, none, none, none, none⟩
        (some ⟨true, some "PhD in Physics", some "completed"⟩)).all_edu_yoe = some 8 := by
  have h := c7_degree_mapping_override
    ⟨some 4, none, none, none, none, none, none, none, none⟩
    ⟨true, some "PhD in Physics", some "completed"⟩ 8 (by decide)
  have hc : pyOrQ (syncFields
      (⟨some 4, none, none, none, none, none, none, none, none⟩ :
        RelevantYearsOfExperience)).relevant_edu_yoe
      (syncFields ⟨some 4, none, none, none, none, none, none, none, none⟩).relevant_education_years =
      some 4 := by decide
  have ht : |(4 : ℚ) - 8| > 8 * (1/5) := by norm_num
  obtain ⟨hA, hB⟩ := (h.2.1 4 hc).1 ht
  exact ⟨by decide, hc, ht, hA, hB, h.2.2 rfl⟩

/-- Counterexample to claim C10 as stated: when BOTH members of a
legacy/new pair arrive non-null with different values, process_output
leaves them different — the field_mapping sync only copies a value
onto a null member.  With the LLM returning
relevant_job_experience_years 3 and relevant_work_yoe 5 (and no
education info, so no totals fire), the returned record still holds 3
and 5. -/
theorem c10_counterexample :
    (process_output ⟨none, some 3, none, none, none, some 5, none, none, none⟩
        none).relevant_job_experience_years = some 3 ∧
    (process_output ⟨none, some 3, none, none, none, some 5, none, none, none⟩
        none).relevant_work_yoe = some 5 ∧
    (⟨none, some 3, none, none, none, some 5, none, none, none⟩ :
        RelevantYearsOfExperience).relevant_job_experience_years.isSome = true ∧
    (⟨none, some 3, none, none, none, some 5, none, none, none⟩ :
        RelevantYearsOfExperience).relevant_work_yoe.isSome = true ∧
    (process_output ⟨none, some 3, none, none, none, some 5, none, none, none⟩
        none).relevant_job_experience_years ≠
      (process_output ⟨none, some 3, none, none, none, some 5, none, none, none⟩
        none).relevant_work_yoe := by
  refine ⟨by decide, by decide, by decide, by decide, by decide⟩

/-- Claim C10 as amended: after process_output, each legacy/new pair
holds the same value whenever at most one member arrived non-null (or
both arrived equal) — the alias sync copies across a null member, the
education correction writes both education members together, and the
total computation writes both total members together; and whenever
both a relevant-education and a relevant-work value are present in the
input, both total fields are set to the sum of the final education and
work values (each read new-name first, falling back to the legacy name
when the new one is falsy), overriding any total the LLM supplied. -/
theorem c10_alias_pairs_and_totals_amended (r0 : RelevantYearsOfExperience)
    (oinfo : Option DegreeInfo) :
    (r0.relevant_education_years = none ∨ r0.relevant_edu_yoe = none ∨
       r0.relevant_education_years = r0.relevant_edu_yoe →
       (process_output r0 oinfo).relevant_education_years =
         (process_output r0 oinfo).relevant_edu_yoe) ∧
    (r0.relevant_job_experience_years = none ∨ r0.relevant_work_yoe = none ∨
       r0.relevant_job_experience_years = r0.relevant_work_yoe →
       (process_output r0 oinfo).relevant_job_experience_years =
         (process_output r0 oinfo).relevant_work_yoe) ∧
    (r0.total_relevant_experience_years = none ∨ r0.relevant_total_yoe = none ∨
       r0.total_relevant_experience_years = r0.relevant_total_yoe →
       (process_output r0 oinfo).total_relevant_experience_years =
         (process_output r0 oinfo).relevant_total_yoe) ∧
    ((r0.relevant_edu_yoe.isSome = true ∨ r0.relevant_education_years.isSome = true) →
     (r0.relevant_work_yoe.isSome = true ∨ r0.relevant_job_experience_years.isSome = true) →
       (process_output r0 oinfo).relevant_total_yoe =
         some ((pyOrQ (process_output r0 oinfo).relevant_edu_yoe
                  (process_output r0 oinfo).relevant_education_years).getD 0 +
               (pyOrQ (process_output r0 oinfo).relevant_work_yoe
                  (process_output r0 oinfo).relevant_job_experience_years).getD 0) ∧
       (process_output r0 oinfo).total_relevant_experience_years =
         (process_output r0 oinfo).relevant_total_yoe) := by
  have hsdef : syncFields r0 = syncTotal (syncWork (syncEdu r0)) := rfl
  -- bridges from the final record down to the post-correction record
  have hfe : (process_output r0 oinfo).relevant_edu_yoe =
      (eduCorrection (syncFields r0) oinfo).relevant_edu_yoe := by
    simp only [process_output]
    rw [(allTotals_frame _).2.2.2.1, (relevantTotals_frame _).2.2.1]
  have hfo : (process_output r0 oinfo).relevant_education_years =
      (eduCorrection (syncFields r0) oinfo).relevant_education_years := by
    simp only [process_output]
    rw [(allTotals_frame _).1, (relevantTotals_frame _).1]
  have hfwn : (process_output r0 oinfo).relevant_work_yoe =
      (syncFields r0).relevant_work_yoe := by
    simp only [process_output]
    rw [(allTotals_frame _).2.2.2.2.2.1, (relevantTotals_frame _).2.2.2.2.1,
      (eduCorrection_frame _ _).2.1]
  have hfwo : (process_output r0 oinfo).relevant_job_experience_years =
      (syncFields r0).relevant_job_experience_years := by
    simp only [process_output]
    rw [(allTotals_frame _).2.1, (relevantTotals_frame _).2.1,
      (eduCorrection_frame _ _).1]
  have hftn : (process_output r0 oinfo).relevant_total_yoe =
      (relevantTotals (eduCorrection (syncFields r0) oinfo)).relevant_total_yoe := by
    simp only [process_output]
    rw [(allTotals_frame _).2.2.2.2.2.2.2]
  have hfto : (process_output r0 oinfo).total_relevant_experience_years =
      (relevantTotals (eduCorrection (syncFields r0) oinfo)).total_relevant_experience_years := by
    simp only [process_output]
    rw [(allTotals_frame _).2.2.1]
  -- the synced record seen field by field
  have hsen : (syncFields r0).relevant_edu_yoe = (syncEdu r0).relevant_edu_yoe := by
    rw [hsdef, (syncTotal_frame _).2.2.1, (syncWork_frame _).2.2.1]
  have hseo : (syncFields r0).relevant_education_years =
      (syncEdu r0).relevant_education_years := by
    rw [hsdef, (syncTotal_frame _).1, (syncWork_frame _).1]
  have hswn : (syncFields r0).relevant_work_yoe = (syncWork (syncEdu r0)).relevant_work_yoe := by
    rw [hsdef, (syncTotal_frame _).2.2.2.2.1]
  have hswo : (syncFields r0).relevant_job_experience_years =
      (syncWork (syncEdu r0)).relevant_job_experience_years := by
    rw [hsdef, (syncTotal_frame _).2.1]
  have hwn0 : (syncEdu r0).relevant_work_yoe = r0.relevant_work_yoe :=
    (syncEdu_frame r0).2.2.2.1
  have hwo0 : (syncEdu r0).relevant_job_experience_years = r0.relevant_job_experience_years :=
    (syncEdu_frame r0).1
  refine ⟨?_, ?_, ?_, ?_⟩
  · intro h
    rw [hfe, hfo]
    exact eduCorrection_pair_eq (syncFields r0) oinfo
      (by rw [hsen, hseo]; exact syncEdu_pair_eq r0 h)
  · intro h
    rw [hfwn, hfwo, hswn, hswo]
    exact syncWork_pair_eq (syncEdu r0) (by rw [hwn0, hwo0]; exact h)
  · intro h
    by_cases hg : ((eduCorrection (syncFields r0) oinfo).relevant_edu_yoe.isSome = true ∨
        (eduCorrection (syncFields r0) oinfo).relevant_education_years.isSome = true) ∧
        ((eduCorrection (syncFields r0) oinfo).relevant_work_yoe.isSome = true ∨
         (eduCorrection (syncFields r0) oinfo).relevant_job_experience_years.isSome = true)
    · -- the totals computation fires and writes both members together
      have hpairE : (eduCorrection (syncFields r0) oinfo).relevant_edu_yoe.isSome =
          (eduCorrection (syncFields r0) oinfo).relevant_education_years.isSome :=
        eduCorrection_pair_isSome_eq (syncFields r0) oinfo
          (by rw [hsen, hseo]
              exact ((syncEdu_pair_isSome r0).2).trans ((syncEdu_pair_isSome r0).1).symm)
      have hpairW : (eduCorrection (syncFields r0) oinfo).relevant_work_yoe.isSome =
          (eduCorrection (syncFields r0) oinfo).relevant_job_experience_years.isSome := by
        rw [(eduCorrection_frame _ _).2.1, (eduCorrection_frame _ _).1, hswn, hswo]
        exact ((syncWork_pair_isSome _).2).trans ((syncWork_pair_isSome _).1).symm
      have hE : (eduCorrection (syncFields r0) oinfo).relevant_edu_yoe.isSome = true ∧
          (eduCorrection (syncFields r0) oinfo).relevant_education_years.isSome = true := by
        rcases hg.1 with hx | hx
        · exact ⟨hx, by rw [← hpairE]; exact hx⟩
        · exact ⟨by rw [hpairE]; exact hx, hx⟩
      have hW : (eduCorrection (syncFields r0) oinfo).relevant_work_yoe.isSome = true ∧
          (eduCorrection (syncFields r0) oinfo).relevant_job_experience_years.isSome = true := by
        rcases hg.2 with hx | hx
        · exact ⟨hx, by rw [← hpairW]; exact hx⟩
        · exact ⟨by rw [hpairW]; exact hx, hx⟩
      have hset := relevantTotals_set (eduCorrection (syncFields r0) oinfo)
        hE.1 hE.2 hW.1 hW.2
      rw [hfto, hftn]
      exact hset.2
    · -- the totals computation is skipped; the synced pair is returned
      rw [hfto, hftn, relevantTotals_skip _ hg]
      have hte : (eduCorrection (syncFields r0) oinfo).total_relevant_experience_years =
          (syncFields r0).total_relevant_experience_years := (eduCorrection_frame _ _).2.2.1
      have htn : (eduCorrection (syncFields r0) oinfo).relevant_total_yoe =
          (syncFields r0).relevant_total_yoe := (eduCorrection_frame _ _).2.2.2.1
      rw [hte, htn, hsdef]
      apply syncTotal_pair_eq
      rw [(syncWork_frame _).2.1, (syncWork_frame _).2.2.2.2.2.1,
        (syncEdu_frame _).2.1, (syncEdu_frame _).2.2.2.2.2.1]
      exact h
  · intro hE0 hW0
    have hsEn : (syncFields r0).relevant_edu_yoe.isSome = true := by
      rw [hsen, (syncEdu_pair_isSome r0).2]
      rcases hE0 with hx | hx <;> simp [hx]
    have hsEo : (syncFields r0).relevant_education_years.isSome = true := by
      rw [hseo, (syncEdu_pair_isSome r0).1]
      rcases hE0 with hx | hx <;> simp [hx]
    have hsWn : (syncFields r0).relevant_work_yoe.isSome = true := by
      rw [hswn, (syncWork_pair_isSome _).2, hwn0, hwo0]
      rcases hW0 with hx | hx <;> simp [hx]
    have hsWo : (syncFields r0).relevant_job_experience_years.isSome = true := by
      rw [hswo, (syncWork_pair_isSome _).1, hwn0, hwo0]
      rcases hW0 with hx | hx <;> simp [hx]
    have hcE := eduCorrection_pair_isSome (syncFields r0) oinfo hsEn hsEo
    have hcWn : (eduCorrection (syncFields r0) oinfo).relevant_work_yoe.isSome = true := by
      rw [(eduCorrection_frame _ _).2.1]
      exact hsWn
    have hcWo : (eduCorrection (syncFields r0) oinfo).relevant_job_experience_years.isSome =
        true := by
      rw [(eduCorrection_frame _ _).1]
      exact hsWo
    have hset := relevantTotals_set (eduCorrection (syncFields r0) oinfo)
      hcE.1 hcE.2 hcWn hcWo
    constructor
    · rw [hftn, hset.1, hfe, hfo, hfwn, hfwo,
        (eduCorrection_frame (syncFields r0) oinfo).2.1,
        (eduCorrection_frame (syncFields r0) oinfo).1]
    · rw [hfto, hftn]
      exact hset.2

/-- Witness for C10 as amended: the LLM supplies only the legacy names
(education 2, work 3); after process_output both names of each pair
agree and both total fields hold 5, overriding the absent total. -/
theorem c10_witness :
    ((⟨some 2, some 3, none, none, none, none, none, none, none⟩ :
        RelevantYearsOfExperience).relevant_edu_yoe = none) ∧
    ((⟨some 2, some 3, none, none, none, none, none, none, none⟩ :
        RelevantYearsOfExperience).relevant_education_years.isSome = true) ∧
    (process_output ⟨some 2, some 3, none, none, none, none, none, none, none⟩
        none).relevant_education_years =
      (process_output ⟨some 2, some 3, none, none, none, none, none, none, none⟩
        none).relevant_edu_yoe ∧
    (process_output ⟨some 2, some 3, none, none, none, none, none, none, none⟩
        none).relevant_total_yoe =
      some ((pyOrQ (process_output ⟨some 2, some 3, none, none, none, none, none, none, none⟩
                none).relevant_edu_yoe
              (process_output ⟨some 2, some 3, none, none, none, none, none, none, none⟩
                none).relevant_education_years).getD 0 +
            (pyOrQ (process_output ⟨some 2, some 3, none, none, none, none, none, none, none⟩
                none).relevant_work_yoe
              (process_output ⟨some 2, some 3, none, none, none, none, none, none, none⟩
                none).relevant_job_experience_years).getD 0) ∧
    (process_output ⟨some 2, some 3, none, none, none, none, none, none, none⟩
        none).total_relevant_experience_years =
      (process_output ⟨some 2, some 3, none, none, none, none, none, none, none⟩
        none).relevant_total_yoe := by
  have h := c10_alias_pairs_and_totals_amended
    ⟨some 2, some 3, none, none, none, none, none, none, none⟩ none
  have ht := h.2.2.2 (Or.inr rfl) (Or.inr rfl)
  exact ⟨rfl, rfl, h.1 (Or.inr (Or.inl rfl)), ht.1, ht.2⟩

/-- Every column the plugin flattening emits is at least 16 characters
long, so a shorter key is never bound by it. -/
theorem lookup_pluginPart_none (k : String) (pd : PyDict) (hk : k.length < 16) :
    List.lookup k (pluginPart pd) = none :=
  lookup_pluginFold_none k pd hk customPluginNames (by decide) [] rfl

/-- A short key absent from the extraction record is absent from its
flattened form. -/
theorem lookup_flatten_none (er : PyDict) (k : String) (hk : k.length < 16)
    (her : List.lookup k er = none) :
    List.lookup k (flattenExtraction er) = none := by
  simp only [flattenExtraction]
  rw [lookup_append_none _ _ _ (lookup_pluginPart_none k _ hk)]
  exact lookup_filter_none _ _ _ her

/-- The flattened row of a successfully extracted document reports
parsing_status success. -/
theorem lookup_flatten_success (er : PyDict) (fn : String)
    (her : List.lookup "parsing_status" er = none) :
    List.lookup "parsing_status"
      (flattenExtraction er ++
        [("filename", JVal.s fn), ("parsing_status", JVal.s "success")]) =
      some (.s "success") := by
  rw [lookup_append_none _ _ _ (lookup_flatten_none er "parsing_status" (by decide) her)]
  rfl

/-- Whether a settled extract call raised. -/
def failCount : Except Unit PyDict → ℕ
  | .error _ => 1
  | .ok _ => 0

/-- The present-date handling leaves an empty experience dictionary
unchanged whatever the submission date: its work_experiences guard is
falsy. -/
theorem presentHandling_empty (dateParseOk : Bool) (dateSub : Option String) :
    presentHandling dateParseOk dateSub [] = [] := by
  unfold presentHandling
  rcases dateSub with _ | d
  · rfl
  · split_ifs <;> simp_all [pyGet, truthy]

/-- Counterexample to claim C1 as stated: the claim also names
ResumeProcessor.process_resume, but that orchestrator has no
per-future exception handling — when exactly one extractor raises
inside its own extract call (here the profile extractor) while every
sibling succeeds, future.result() re-raises into the document-level
handler and process_resume returns None: no consolidated record with
status success is produced on that path. -/
theorem c1_counterexample :
    process_resume true true (.error ())
      (.ok ([("skills", JVal.arr [])],
            ⟨"SkillsExtractor", 10, 6, 4, "usage_metadata", false⟩))
      (.ok ([], ⟨"EducationExtractor", 10, 6, 4, "usage_metadata", false⟩))
      (.ok ([], ⟨"ExperienceExtractor", 10, 6, 4, "usage_metadata", false⟩))
      (.ok ([], ⟨"YoeExtractor", 10, 6, 4, "usage_metadata", false⟩))
      "resume.pdf" = none :=
  rfl

/-- Claim C1 as amended: the fault isolation holds for the phased
orchestrator (extract_with_optimized_plugins driven by
parse_single_resume).  For every document whose text extraction
succeeds, if exactly one phase-1 extractor raises inside its own
extract call while every sibling succeeds, the flattened row still
carries parsing_status success, the failing extractor's fields in the
consolidated record are the empty defaults (empty strings for the
profile fields, empty lists for skills, educations and
work_experiences, an empty dictionary for the social plugin data), and
every sibling's fields are populated from its returned dictionary.
In ResumeProcessor.process_resume, by contrast, a raising extractor
aborts the whole document (see the counterexample); isolation there
relies on extract_with_llm never raising. -/
theorem c1_phase1_fault_isolation_amended
    (text : String) (p sk ed ex so : Except Unit PyDict)
    (yoeF eduStatsF workStatsF : PyDict → Except Unit PyDict)
    (relevantF : String → PyDict → Option String → Option String → Except Unit PyDict)
    (jobDesc dateSub : Option String) (dateParseOk : Bool)
    (fileName : String) (procTime : ℚ)
    (_hone : failCount p + failCount sk + failCount ed + failCount ex + failCount so = 1) :
    List.lookup "parsing_status"
      (parse_single_resume (.ok text) true true p sk ed ex so yoeF eduStatsF workStatsF
        relevantF jobDesc dateSub dateParseOk fileName procTime) = some (.s "success") ∧
    (p = .error () →
      List.lookup "name"
        (extract_with_optimized_plugins text true true p sk ed ex so yoeF eduStatsF
          workStatsF relevantF jobDesc dateSub dateParseOk fileName procTime) =
        some (.s "") ∧
      List.lookup "contact_number"
        (extract_with_optimized_plugins text true true p sk ed ex so yoeF eduStatsF
          workStatsF relevantF jobDesc dateSub dateParseOk fileName procTime) =
        some (.s "") ∧
      List.lookup "email"
        (extract_with_optimized_plugins text true true p sk ed ex so yoeF eduStatsF
          workStatsF relevantF jobDesc dateSub dateParseOk fileName procTime) =
        some (.s "")) ∧
    (∀ d, p = .ok d →
      List.lookup "name"
        (extract_with_optimized_plugins text true true p sk ed ex so yoeF eduStatsF
          workStatsF relevantF jobDesc dateSub dateParseOk fileName procTime) =
        some (pyGetD d "name" (.s "")) ∧
      List.lookup "contact_number"
        (extract_with_optimized_plugins text true true p sk ed ex so yoeF eduStatsF
          workStatsF relevantF jobDesc dateSub dateParseOk fileName procTime) =
        some (pyGetD d "contact_number" (.s "")) ∧
      List.lookup "email"
        (extract_with_optimized_plugins text true true p sk ed ex so yoeF eduStatsF
          workStatsF relevantF jobDesc dateSub dateParseOk fileName procTime) =
        some (pyGetD d "email" (.s ""))) ∧
    (sk = .error () →
      List.lookup "skills"
        (extract_with_optimized_plugins text true true p sk ed ex so yoeF eduStatsF
          workStatsF relevantF jobDesc dateSub dateParseOk fileName procTime) =
        some (.arr [])) ∧
    (∀ d, sk = .ok d →
      List.lookup "skills"
        (extract_with_optimized_plugins text true true p sk ed ex so yoeF eduStatsF
          workStatsF relevantF jobDesc dateSub dateParseOk fileName procTime) =
        some (pyGetD d "skills" (.arr []))) ∧
    (ed = .error () →
      List.lookup "educations"
        (extract_with_optimized_plugins text true true p sk ed ex so yoeF eduStatsF
          workStatsF relevantF jobDesc dateSub dateParseOk fileName procTime) =
        some (.arr [])) ∧
    (∀ d, ed = .ok d →
      List.lookup "educations"
        (extract_with_optimized_plugins text true true p sk ed ex so yoeF eduStatsF
          workStatsF relevantF jobDesc dateSub dateParseOk fileName procTime) =
        some (pyGetD d "educations" (.arr []))) ∧
    (ex = .error () →
      List.lookup "work_experiences"
        (extract_with_optimized_plugins text true true p sk ed ex so yoeF eduStatsF
          workStatsF relevantF jobDesc dateSub dateParseOk fileName procTime) =
        some (.arr [])) ∧
    (∀ d, ex = .ok d →
      List.lookup "work_experiences"
        (extract_with_optimized_plugins text true true p sk ed ex so yoeF eduStatsF
          workStatsF relevantF jobDesc dateSub dateParseOk fileName procTime) =
        some (pyGetD (presentHandling dateParseOk dateSub d) "work_experiences" (.arr []))) ∧
    (so = .error () → ∃ pdl,
      List.lookup "plugin_data"
        (extract_with_optimized_plugins text true true p sk ed ex so yoeF eduStatsF
          workStatsF relevantF jobDesc dateSub dateParseOk fileName procTime) =
        some (.obj pdl) ∧
      List.lookup "social_extractor" pdl = some (.obj [])) ∧
    (∀ d, so = .ok d → ∃ pdl,
      List.lookup "plugin_data"
        (extract_with_optimized_plugins text true true p sk ed ex so yoeF eduStatsF
          workStatsF relevantF jobDesc dateSub dateParseOk fileName procTime) =
        some (.obj pdl) ∧
      List.lookup "social_extractor" pdl = some (.obj d)) := by
  refine ⟨?_, ?_, ?_, ?_, ?_, ?_, ?_, ?_, ?_, ?_, ?_⟩
  · exact lookup_flatten_success _ fileName rfl
  · rintro rfl
    exact ⟨rfl, rfl, rfl⟩
  · rintro d rfl
    exact ⟨rfl, rfl, rfl⟩
  · rintro rfl
    rfl
  · rintro d rfl
    rfl
  · rintro rfl
    rfl
  · rintro d rfl
    rfl
  · rintro rfl
    have h1 : List.lookup "work_experiences"
        (extract_with_optimized_plugins text true true p sk ed (.error ()) so yoeF
          eduStatsF workStatsF relevantF jobDesc dateSub dateParseOk fileName procTime) =
        some (pyGetD (presentHandling dateParseOk dateSub (settleOr (.error ())))
          "work_experiences" (.arr [])) := rfl
    rw [h1, show settleOr (Except.error () : Except Unit PyDict) = [] from rfl,
      presentHandling_empty]
    rfl
  · rintro d rfl
    rfl
  · rintro rfl
    exact ⟨_, rfl, rfl⟩
  · rintro d rfl
    exact ⟨_, rfl, rfl⟩

/-- Witness for C1 as amended: the skills extractor raises, its four
siblings succeed, and the run still reports parsing_status success
with skills defaulted to the empty list and the profile name populated
from the profile extractor's dictionary. -/
theorem c1_witness :
    failCount (.ok [("name", JVal.s "Ada")]) + failCount (.error ()) +
      failCount (.ok ([] : PyDict)) + failCount (.ok ([] : PyDict)) +
      failCount (.ok ([] : PyDict)) = 1 ∧
    List.lookup "parsing_status"
      (parse_single_resume (.ok "txt") true true (.ok [("name", JVal.s "Ada")])
        (.error ()) (.ok []) (.ok []) (.ok [])
        (fun _ => .ok []) (fun _ => .ok []) (fun _ => .ok [])
        (fun _ _ _ _ => .ok []) none none true "r.pdf" 0) = some (.s "success") ∧
    List.lookup "skills"
      (extract_with_optimized_plugins "txt" true true (.ok [("name", JVal.s "Ada")])
        (.error ()) (.ok []) (.ok []) (.ok [])
        (fun _ => .ok []) (fun _ => .ok []) (fun _ => .ok [])
        (fun _ _ _ _ => .ok []) none none true "r.pdf" 0) = some (.arr []) ∧
    List.lookup "name"
      (extract_with_optimized_plugins "txt" true true (.ok [("name", JVal.s "Ada")])
        (.error ()) (.ok []) (.ok []) (.ok [])
        (fun _ => .ok []) (fun _ => .ok []) (fun _ => .ok [])
        (fun _ _ _ _ => .ok []) none none true "r.pdf" 0) = some (.s "Ada") := by
  have h := c1_phase1_fault_isolation_amended "txt" (.ok [("name", JVal.s "Ada")])
    (.error ()) (.ok []) (.ok []) (.ok [])
    (fun _ => .ok []) (fun _ => .ok []) (fun _ => .ok [])
    (fun _ _ _ _ => .ok []) none none true "r.pdf" 0 rfl
  refine ⟨rfl, h.1, h.2.2.2.1 rfl, ?_⟩
  have hn := (h.2.2.1 [("name", JVal.s "Ada")] rfl).1
  rw [hn]
  rfl

end CVInsight
